import Mathlib

/-!
Verification of the MCP dispatcher core of `standard_finder.py`
(`SimpleMCPServer`): message classification, id handling, tool dispatch,
argument unwrapping, the stdio response guard (size truncation ladder),
the HTTP POST path, and the progress-notification channel.

The embedding models Python values flowing through the dispatcher as the
inductive type `PyVal`; dicts are association lists in insertion order
(Python 3.7+ dict semantics).  `json.dumps` is modelled by `pyDumps`,
parameterised by `ensure_ascii` and the separator pair, returning `none`
where the Python encoder would raise `TypeError` (only possible on the
injected bound-method callback, which never occurs inside a response).
-/

namespace StdFinder

/-- A Python value as it occurs in the dispatcher: the JSON universe
(`json.loads` output: `None`, `bool`, `int`, `str`, `list`, `dict`)
plus the bound method `self.send_progress_notification`, which
`handle_request` injects into tool-call arguments (line 498).
Numbers are modelled as integers; the dispatcher never computes with
float payloads. -/
inductive PyVal where
  | null
  | bool (b : Bool)
  | num (n : Int)
  | str (s : String)
  | arr (xs : List PyVal)
  | obj (kvs : List (String × PyVal))
  | callback
deriving Repr

/-- Python `v is None`. -/
def PyVal.isNull : PyVal → Bool
  | .null => true
  | _ => false

/-- Python `isinstance(v, (str, int, float))`, the id validity check of
`run_stdio` (lines 677, 710).  `bool` is a subclass of `int` in Python,
so boolean ids pass this check. -/
def PyVal.isStrIntFloat : PyVal → Bool
  | .str _ => true
  | .num _ => true
  | .bool _ => true
  | _ => false

/-- Python `d[k]` / `k in d` lookup on a dict in insertion order. -/
def pyGet (kvs : List (String × PyVal)) (k : String) : Option PyVal :=
  match kvs with
  | [] => none
  | (k', v) :: rest => if k' = k then some v else pyGet rest k

/-- Python `del d[k]`: removes the key (Python dicts have unique keys, so
filtering all occurrences agrees on every dict that Python can build). -/
def pyDel (kvs : List (String × PyVal)) (k : String) : List (String × PyVal) :=
  kvs.filter (fun kv => kv.1 ≠ k)

/-- Python `d[k] = v`: overwrites in place when the key exists (keeping its
position), otherwise appends, as insertion-ordered dicts do. -/
def pySet (kvs : List (String × PyVal)) (k : String) (v : PyVal) :
    List (String × PyVal) :=
  if kvs.any (fun kv => kv.1 = k) then
    kvs.map (fun kv => if kv.1 = k then (k, v) else kv)
  else kvs ++ [(k, v)]

/-- Python `type(v).__name__`, as used in exception messages. -/
def pyTypeName : PyVal → String
  | .null => "NoneType"
  | .bool _ => "bool"
  | .num _ => "int"
  | .str _ => "str"
  | .arr _ => "list"
  | .obj _ => "dict"
  | .callback => "method"

/-- Joins rendered parts with a separator (what `sep.join(parts)` does
inside json.dumps). -/
def joinSep (sep : String) : List String → String
  | [] => ""
  | [x] => x
  | x :: y :: rest => x ++ sep ++ joinSep sep (y :: rest)

mutual
/-- Python `repr(v)` for the values above.  Nested strings are shown in
single quotes without further escaping; the dispatcher only interpolates
such values into log and error-message text, and no claim depends on
Python repr escaping of exotic strings. -/
def pyRepr : PyVal → String
  | .null => "None"
  | .bool true => "True"
  | .bool false => "False"
  | .num n => toString n
  | .str s => "\x27" ++ s ++ "\x27"
  | .arr xs => "[" ++ joinSep ", " (pyReprList xs) ++ "]"
  | .obj kvs => "\x7b" ++ joinSep ", " (pyReprObj kvs) ++ "\x7d"
  | .callback => "<bound method SimpleMCPServer.send_progress_notification>"

def pyReprList : List PyVal → List String
  | [] => []
  | v :: rest => pyRepr v :: pyReprList rest

def pyReprObj : List (String × PyVal) → List String
  | [] => []
  | (k, v) :: rest => ("\x27" ++ k ++ "\x27: " ++ pyRepr v) :: pyReprObj rest
end

/-- Python `str(v)` as used in f-strings: the string itself for `str`,
`repr`-style text otherwise. -/
def pyStr : PyVal → String
  | .str s => s
  | v => pyRepr v

/-- Whether `json.dumps` accepts the value (no bound-method inside). -/
def PyVal.jsonSafe : PyVal → Bool
  | .null => true
  | .bool _ => true
  | .num _ => true
  | .str _ => true
  | .arr xs => goList xs
  | .obj kvs => goObj kvs
  | .callback => false
where
  goList : List PyVal → Bool
    | [] => true
    | v :: rest => v.jsonSafe && goList rest
  goObj : List (String × PyVal) → Bool
    | [] => true
    | (_, v) :: rest => v.jsonSafe && goObj rest

/-- Lowercase hex digit, as Python's json encoder emits in `\uXXXX`. -/
def hexDigit (n : Nat) : Char :=
  if n < 10 then Char.ofNat (48 + n) else Char.ofNat (87 + n)

/-- A `\uXXXX` escape for a code unit. -/
def uEsc (n : Nat) : List Char :=
  ['\\', 'u', hexDigit (n / 4096 % 16), hexDigit (n / 256 % 16),
   hexDigit (n / 16 % 16), hexDigit (n % 16)]

/-- Escape one character exactly as json.dumps does: the two-character
escapes for quote, backslash and the common control characters, `\uXXXX`
for other control characters, and - when `ensure_ascii` - `\uXXXX`
(with surrogate pairs beyond the BMP) for every non-ASCII character. -/
def escChar (ascii : Bool) (c : Char) : List Char :=
  if c = '"' then ['\\', '"']
  else if c = '\\' then ['\\', '\\']
  else if c = '\n' then ['\\', 'n']
  else if c = '\t' then ['\\', 't']
  else if c = '\r' then ['\\', 'r']
  else if c = Char.ofNat 8 then ['\\', 'b']
  else if c = Char.ofNat 12 then ['\\', 'f']
  else if c.toNat < 32 then uEsc c.toNat
  else if ascii && 126 < c.toNat then
    if c.toNat ≤ 65535 then uEsc c.toNat
    else uEsc (55296 + (c.toNat - 65536) / 1024) ++ uEsc (56320 + (c.toNat - 65536) % 1024)
  else [c]

/-- Escape a whole string body. -/
def escString (ascii : Bool) (s : String) : String :=
  String.mk (s.data.flatMap (escChar ascii))

/-- A serialized JSON string: quoted, escaped body. -/
def qstr (ascii : Bool) (s : String) : String :=
  "\"" ++ escString ascii s ++ "\""

/-- The separator pair passed to json.dumps: `(',', ':')` compact form
(line 721) or the default `(', ', ': ')` (lines 739, 798, 815, 916, 1113). -/
structure Sep where
  item : String
  key : String
deriving Repr, DecidableEq

def compactSep : Sep := ⟨",", ":"⟩

def defaultSep : Sep := ⟨", ", ": "⟩

mutual
/-- `json.dumps(v, ensure_ascii=ascii, separators=sep)`: `none` models the
`TypeError` the encoder raises on the injected bound method. -/
def pyDumps (ascii : Bool) (sep : Sep) : PyVal → Option String
  | .null => some "null"
  | .bool true => some "true"
  | .bool false => some "false"
  | .num n => some (toString n)
  | .str s => some (qstr ascii s)
  | .arr xs =>
    match pyDumpsList ascii sep xs with
    | some parts => some ("[" ++ joinSep sep.item parts ++ "]")
    | none => none
  | .obj kvs =>
    match pyDumpsObj ascii sep kvs with
    | some parts => some ("\x7b" ++ joinSep sep.item parts ++ "\x7d")
    | none => none
  | .callback => none

def pyDumpsList (ascii : Bool) (sep : Sep) : List PyVal → Option (List String)
  | [] => some []
  | v :: rest =>
    match pyDumps ascii sep v, pyDumpsList ascii sep rest with
    | some s, some r => some (s :: r)
    | _, _ => none

def pyDumpsObj (ascii : Bool) (sep : Sep) : List (String × PyVal) → Option (List String)
  | [] => some []
  | (k, v) :: rest =>
    match pyDumps ascii sep v, pyDumpsObj ascii sep rest with
    | some s, some r => some ((qstr ascii k ++ sep.key ++ s) :: r)
    | _, _ => none
end

/-- Python `pat in s` (substring containment), used by the guard's
`'"undefined"' in response_str` check (line 729) and by `param in params`
when `params` is a string. -/
def listContainsSub (pat : List Char) : List Char → Bool
  | [] => pat.isEmpty
  | c :: cs => pat.isPrefixOf (c :: cs) || listContainsSub pat cs

def strContains (s pat : String) : Bool :=
  listContainsSub pat.data s.data

def strStartsWith (s p : String) : Bool :=
  p.data.isPrefixOf s.data

/-! ### Tool registry

The module-level `SimpleMCPServer` instance registers ten tools through the
`@mcp.tool` decorator (a plain insertion into the `self.tools` dict), in
source order (lines 2463-2684). -/

/-- The keys of `self.tools` in registration (insertion) order. -/
def registeredToolNames : List String :=
  ["get_rfc", "search_rfcs", "get_rfc_section",
   "get_internet_draft", "search_internet_drafts", "get_internet_draft_section",
   "get_openid_spec", "search_openid_specs", "get_openid_spec_section",
   "get_working_group_documents"]

/-- The tools that receive `_request_id` / `_progress_callback` (line 496). -/
def progressTools : List String :=
  ["get_internet_draft", "get_rfc", "get_openid_spec", "search_openid_specs"]

/-- `tool_func.__doc__ or f"{tool_name} tool"`, then `doc.split('\n')[0].strip()`
(lines 429, 449); every registered tool has a one-line docstring. -/
def toolDescription : String → String
  | "get_rfc" => "Fetch an RFC document by its number"
  | "search_rfcs" => "Search for RFCs by keyword"
  | "get_rfc_section" => "Get a specific section from an RFC"
  | "get_internet_draft" => "Fetch an Internet Draft document by its name"
  | "search_internet_drafts" => "Search for Internet Drafts by keyword"
  | "get_internet_draft_section" => "Get a specific section from an Internet Draft"
  | "get_openid_spec" => "Fetch an OpenID Foundation specification by its name"
  | "search_openid_specs" => "Search for OpenID Foundation specifications by keyword"
  | "get_openid_spec_section" => "Get a specific section from an OpenID Foundation specification"
  | "get_working_group_documents" => "Get all active RFCs and Internet Drafts for a specific IETF working group"
  | n => n ++ " tool"

/-- A string-typed schema property with only a description. -/
def strProp (desc : String) : PyVal :=
  .obj [("type", .str "string"), ("description", .str desc)]

/-- The recurring `format` property with its enum and default. -/
def formatProp : PyVal :=
  .obj [("type", .str "string"),
        ("enum", .arr [.str "full", .str "metadata", .str "sections"]),
        ("default", .str "full"),
        ("description", .str "Output format: full document, metadata only, or sections only")]

/-- An integer-typed `limit` property with default and bounds. -/
def limitProp (dflt mx : Int) (desc : String) : PyVal :=
  .obj [("type", .str "integer"), ("default", .num dflt),
        ("minimum", .num 1), ("maximum", .num mx), ("description", .str desc)]

/-- `SimpleMCPServer._get_tool_schema` (lines 45-256): the wrapper dict for
each tool, or the `DefaultInput` fallback. -/
def toolSchemas : String → List (String × PyVal)
  | "get_rfc" =>
    [("GetRfcInput", .obj
      [("type", .str "object"),
       ("properties", .obj
         [("number", strProp "RFC number (e.g., \x272616\x27, \x277540\x27)"),
          ("format", formatProp)]),
       ("required", .arr [.str "number"]),
       ("description", .str "Parameters for fetching an RFC document")])]
  | "search_rfcs" =>
    [("SearchRfcsInput", .obj
      [("type", .str "object"),
       ("properties", .obj
         [("query", strProp "Search query or keyword to find RFCs"),
          ("limit", limitProp 10 50 "Maximum number of results to return")]),
       ("required", .arr [.str "query"]),
       ("description", .str "Parameters for searching RFC documents")])]
  | "get_rfc_section" =>
    [("GetRfcSectionInput", .obj
      [("type", .str "object"),
       ("properties", .obj
         [("number", strProp "RFC number (e.g., \x272616\x27)"),
          ("section", strProp "Section title or identifier to retrieve")]),
       ("required", .arr [.str "number", .str "section"]),
       ("description", .str "Parameters for fetching a specific RFC section")])]
  | "get_internet_draft" =>
    [("GetInternetDraftInput", .obj
      [("type", .str "object"),
       ("properties", .obj
         [("name", strProp "Internet Draft name (e.g., \x27draft-ietf-httpbis-http2\x27 or \x27draft-ietf-httpbis-http2-17\x27)"),
          ("format", formatProp)]),
       ("required", .arr [.str "name"]),
       ("description", .str "Parameters for fetching an Internet Draft document")])]
  | "search_internet_drafts" =>
    [("SearchInternetDraftsInput", .obj
      [("type", .str "object"),
       ("properties", .obj
         [("query", strProp "Search query or keyword to find Internet Drafts"),
          ("limit", limitProp 10 50 "Maximum number of results to return")]),
       ("required", .arr [.str "query"]),
       ("description", .str "Parameters for searching Internet Draft documents")])]
  | "get_internet_draft_section" =>
    [("GetInternetDraftSectionInput", .obj
      [("type", .str "object"),
       ("properties", .obj
         [("name", strProp "Internet Draft name"),
          ("section", strProp "Section title or identifier to retrieve")]),
       ("required", .arr [.str "name", .str "section"]),
       ("description", .str "Parameters for fetching a specific Internet Draft section")])]
  | "get_openid_spec" =>
    [("GetOpenIdSpecInput", .obj
      [("type", .str "object"),
       ("properties", .obj
         [("name", strProp "OpenID specification name (e.g., \x27openid-connect-core\x27, \x27oauth-2.0-multiple-response-types\x27)"),
          ("format", formatProp)]),
       ("required", .arr [.str "name"]),
       ("description", .str "Parameters for fetching an OpenID Foundation specification")])]
  | "search_openid_specs" =>
    [("SearchOpenIdSpecsInput", .obj
      [("type", .str "object"),
       ("properties", .obj
         [("query", strProp "Search query or keyword to find OpenID specifications"),
          ("limit", limitProp 10 20 "Maximum number of results to return")]),
       ("required", .arr [.str "query"]),
       ("description", .str "Parameters for searching OpenID Foundation specifications")])]
  | "get_openid_spec_section" =>
    [("GetOpenIdSpecSectionInput", .obj
      [("type", .str "object"),
       ("properties", .obj
         [("name", strProp "OpenID specification name"),
          ("section", strProp "Section title or identifier to retrieve")]),
       ("required", .arr [.str "name", .str "section"]),
       ("description", .str "Parameters for fetching a specific OpenID specification section")])]
  | "get_working_group_documents" =>
    [("GetWorkingGroupDocumentsInput", .obj
      [("type", .str "object"),
       ("properties", .obj
         [("working_group", strProp "IETF working group name (e.g., \x27httpbis\x27, \x27oauth\x27, \x27tls\x27)"),
          ("include_rfcs", .obj
            [("type", .str "boolean"), ("default", .bool true),
             ("description", .str "Include RFCs published by the working group")]),
          ("include_drafts", .obj
            [("type", .str "boolean"), ("default", .bool true),
             ("description", .str "Include active Internet Drafts from the working group")]),
          ("limit", limitProp 50 100 "Maximum number of documents to return")]),
       ("required", .arr [.str "working_group"]),
       ("description", .str "Parameters for fetching working group documents")])]
  | _ =>
    [("DefaultInput", .obj
      [("type", .str "object"),
       ("properties", .obj []),
       ("required", .arr []),
       ("description", .str "Default input parameters")])]

/-- The schema extraction of the `tools/list` branch (lines 432-445): the
value under the wrapper's first key, or the empty-object fallback. -/
def inputSchemaOf (toolName : String) : PyVal :=
  match toolSchemas toolName with
  | (_, v) :: _ => v
  | [] => .obj [("type", .str "object"), ("properties", .obj []), ("required", .arr [])]

/-- One entry of the `tools/list` result (lines 447-451). -/
def toolsListEntry (toolName : String) : PyVal :=
  .obj [("name", .str toolName),
        ("description", .str (toolDescription toolName)),
        ("inputSchema", inputSchemaOf toolName)]

/-! ### `SimpleMCPServer.handle_request` (lines 276-599)

The dispatcher reads `method`, `params` and `id` with dict `.get`,
classifies the message as Request vs Notification by `request_id is None`
(line 295, covering both an absent and a null id), and routes on the
method string.  Any exception raised inside the `try` block becomes the
`-32603` error response of lines 579-599.  The backend tool functions are
abstracted as a `ToolOracle`: the string they return (or the exception
message they raise), plus the progress events they push through the
injected callback during the call. -/

/-- Outcome of `await self.tools[tool_name](**arguments)`: progress events
(percentage, message) emitted through `_progress_callback` during the
call, and the returned string or raised exception message. -/
structure ToolOutcome where
  events : List (Int × String)
  result : Except String String

/-- The backend behavior of the registered tools, keyed by tool name. -/
abbrev ToolOracle := String → List (String × PyVal) → ToolOutcome

/-- `required_params` of the initialize validation loop (line 339). -/
def requiredInitParams : List String :=
  ["protocolVersion", "capabilities", "clientInfo"]

/-- The exception (if any) raised by the initialize validation loop
(lines 340-353): `param in params` needs an iterable, and the logging
access `params[param]` needs a dict, so non-dict `params` shapes with a
hit raise a `TypeError` that the handler converts to an error response. -/
def initParamsError (params : PyVal) : Option String :=
  match params with
  | .obj _ => none
  | .arr xs =>
    if requiredInitParams.any (fun p =>
        xs.any (fun x => match x with | .str s => s = p | _ => false)) then
      some "list indices must be integers or slices, not str"
    else none
  | .str s =>
    if requiredInitParams.any (fun p => strContains s p) then
      some "string indices must be integers"
    else none
  | v => some ("argument of type \x27" ++ pyTypeName v ++ "\x27 is not iterable")

/-- The "Safety check: never send null ID" pattern (lines 382-386, 459-462,
512-515): delete the `id` field when its value is null.  (Unreachable in
practice: a null request id is classified as a Notification first.) -/
def scrubNullId (kvs : List (String × PyVal)) : PyVal :=
  if ((pyGet kvs "id").map PyVal.isNull).getD false then .obj (pyDel kvs "id")
  else .obj kvs

/-- The initialize `result` payload (lines 361-371). -/
def initializeResult (name : String) : PyVal :=
  .obj [("protocolVersion", .str "2024-11-05"),
        ("capabilities", .obj [("tools", .obj []), ("resources", .obj [])]),
        ("serverInfo", .obj [("name", .str name), ("version", .str "0.2504.4")])]

/-- The initialize response (lines 358-418). -/
def initializeResponse (name : String) (requestId : PyVal) : PyVal :=
  scrubNullId
    [("jsonrpc", .str "2.0"), ("id", requestId), ("result", initializeResult name)]

/-- The `tools/list` response (lines 426-464). -/
def toolsListResponse (requestId : PyVal) : PyVal :=
  scrubNullId
    [("jsonrpc", .str "2.0"), ("id", requestId),
     ("result", .obj [("tools", .arr (registeredToolNames.map toolsListEntry))])]

/-- The `tools/call` success response (lines 501-517): the tool's returned
string wrapped as a single text content item. -/
def toolCallSuccess (requestId : PyVal) (result : String) : PyVal :=
  scrubNullId
    [("jsonrpc", .str "2.0"), ("id", requestId),
     ("result", .obj [("content",
       .arr [.obj [("type", .str "text"), ("text", .str result)]])])]

/-- The catch-all error response (lines 579-599): code `-32603`, the
exception text as message, and the request id appended only when the
message was not a notification (`not is_notification and request_id is
not None`, line 588 - both conjuncts are the same test, since
`is_notification` is defined as `request_id is None`). -/
def errorResponse (requestId : PyVal) (msg : String) : PyVal :=
  let base := [("jsonrpc", .str "2.0"),
               ("error", .obj [("code", .num (-32603)), ("message", .str msg)])]
  if requestId.isNull then .obj base else .obj (base ++ [("id", requestId)])

/-- Lines 476-493: MCP-Inspector wrapper unwrapping.  `schema_wrapper` is
always a non-empty dict; when the arguments hold exactly one key equal to
the wrapper's first key and its value is itself a dict, that inner dict
replaces the arguments; in every other case (several keys, another key,
or a non-mapping value) the arguments are kept as-is. -/
def resolveArguments (toolName : String) (args : List (String × PyVal)) :
    List (String × PyVal) :=
  let schemaW := toolSchemas toolName
  if schemaW.length ≠ 0 ∧ args.length = 1 then
    match schemaW, args with
    | (expectedKey, _) :: _, (actualKey, av) :: _ =>
      if actualKey = expectedKey then
        match av with
        | .obj inner => inner
        | _ => args
      else args
    | _, _ => args
  else args

/-- Lines 496-498: the two out-of-band parameters injected for
progress-capable tools; the callback value is the bound method. -/
def injectProgressParams (args : List (String × PyVal)) (requestId : PyVal) :
    List (String × PyVal) :=
  pySet (pySet args "_request_id" requestId) "_progress_callback" .callback

/-- Exception text when `params["arguments"]` is not a dict: depending on
the shape, `len(arguments)`, `arguments.keys()` or the `**` splat raises
a `TypeError`/`AttributeError` caught at line 564.  The exact Python
message depends on which of those fires first; no claim depends on the
text, only on the error-response shape, so the model uses one
type-directed message. -/
def nonMappingArgsMsg (v : PyVal) : String :=
  "argument of type \x27" ++ pyTypeName v ++ "\x27 cannot be used as tool-call arguments"

/-- What one `handle_request` call produces: the returned response (or
`none` for notifications) and the progress events pushed to stdout
during the embedded tool call, tagged with their `progressToken`. -/
structure HandleOut where
  response : Option PyVal
  events : List (PyVal × Int × String)

/-- `SimpleMCPServer.handle_request` (lines 276-599).  `.error` models an
exception escaping `handle_request` itself, which happens only when the
request is not a dict (the `.get` calls of lines 278-280 run before the
`try` block) or when an `initialize` request is not JSON-serializable
(the size log of line 287 also runs before the `try` block). -/
def handleRequestCore (oracle : ToolOracle) (name : String) (request : PyVal) :
    Except String HandleOut :=
  match request with
  | .obj req =>
    let params := (pyGet req "params").getD (.obj [])
    let requestId := (pyGet req "id").getD .null
    match (pyGet req "method").getD (.str "") with
    | .str m =>
      if m = "initialize" then
        if ¬ (PyVal.jsonSafe (.obj req)) then
          .error "Object of type method is not JSON serializable"
        else if requestId.isNull then
          .ok ⟨none, []⟩
        else
          match initParamsError params with
          | some msg => .ok ⟨some (errorResponse requestId msg), []⟩
          | none => .ok ⟨some (initializeResponse name requestId), []⟩
      else if m = "tools/list" then
        if requestId.isNull then .ok ⟨none, []⟩
        else .ok ⟨some (toolsListResponse requestId), []⟩
      else if m = "tools/call" then
        if requestId.isNull then .ok ⟨none, []⟩
        else
          match params with
          | .obj p =>
            match (pyGet p "name").getD .null with
            | .str t =>
              if t ∈ registeredToolNames then
                match (pyGet p "arguments").getD (.obj []) with
                | .obj args =>
                  let resolved := resolveArguments t args
                  let finalArgs :=
                    if t ∈ progressTools then injectProgressParams resolved requestId
                    else resolved
                  let outcome := oracle t finalArgs
                  let events :=
                    if t ∈ progressTools then
                      outcome.events.map (fun e => (requestId, e.1, e.2))
                    else []
                  match outcome.result with
                  | .ok s => .ok ⟨some (toolCallSuccess requestId s), events⟩
                  | .error e => .ok ⟨some (errorResponse requestId e), events⟩
                | v => .ok ⟨some (errorResponse requestId (nonMappingArgsMsg v)), []⟩
              else .ok ⟨some (errorResponse requestId ("Unknown tool: " ++ t)), []⟩
            | v =>
              .ok ⟨some (errorResponse requestId ("Unknown tool: " ++ pyStr v)), []⟩
          | v =>
            .ok ⟨some (errorResponse requestId
              ("\x27" ++ pyTypeName v ++ "\x27 object has no attribute \x27get\x27")), []⟩
      else if m = "notifications/initialized" then .ok ⟨none, []⟩
      else if strStartsWith m "notifications/" then .ok ⟨none, []⟩
      else .ok ⟨some (errorResponse requestId ("Unknown method: " ++ m)), []⟩
    | v =>
      .ok ⟨some (errorResponse requestId
        ("\x27" ++ pyTypeName v ++ "\x27 object has no attribute \x27startswith\x27")), []⟩
  | v => .error ("\x27" ++ pyTypeName v ++ "\x27 object has no attribute \x27get\x27")

/-- The response `handle_request` hands back to its transport caller. -/
def handleRequest (oracle : ToolOracle) (name : String) (request : PyVal) :
    Option PyVal :=
  match handleRequestCore oracle name request with
  | .ok out => out.response
  | .error _ => none

/-- The name the module-level server instance is constructed with
(line 2456). -/
def mcpServerName : String := "RFC and Internet Draft Server"

/-- A backend oracle with no events and an empty result, for concrete
counterexamples and witnesses whose claims do not involve the backend. -/
def trivOracle : ToolOracle := fun _ _ => ⟨[], .ok ""⟩

/-! ### Progress channel (`send_progress_notification`, lines 258-274)

In stdio mode the notification is printed immediately, during the tool
call (and therefore before `handle_request` returns and the terminal
response is printed); in HTTP mode `_current_mode` is unset and the
event is silently dropped. -/

/-- The progress notification frame (lines 260-271). -/
def progressNotification (token : PyVal) (progress : Int) (message : String) : PyVal :=
  .obj [("jsonrpc", .str "2.0"),
        ("method", .str "notifications/progress"),
        ("params", .obj
          [("progressToken", token),
           ("value", .obj [("kind", .str "report"), ("percentage", .num progress),
                           ("message", .str message)])])]

/-- The stdout line of one progress event: `print(json.dumps(notification))`
with default separators and `ensure_ascii`.  (The serializer cannot fail
here unless the progress token embeds the callback, which no wire request
can contain; `getD` closes that dead branch.) -/
def progressLine (ev : PyVal × Int × String) : String :=
  (pyDumps true defaultSep (progressNotification ev.1 ev.2.1 ev.2.2)).getD ""

/-! ### Response guard of `run_stdio` (lines 663-817) -/

/-- The literal scanned for at line 729. -/
def undefinedLiteral : String := "\"undefined\""

/-- The fallback of lines 732-739 when the serialized response contains
the `"undefined"` literal. -/
def safeFallback : PyVal :=
  .obj [("jsonrpc", .str "2.0"),
        ("error", .obj [("code", .num (-32603)),
                        ("message", .str "Response validation failed")])]

/-- The marker appended to truncated content (line 796). -/
def truncationMarker : String :=
  "\n\n[TRUNCATED: Response too large for stdio transport]"

/-- The minimal error message of line 809, embedding the measured size. -/
def oversizeMessage (size : Nat) : String :=
  "Response too large for stdio transport (" ++ toString size ++
    " bytes). Try using HTTP mode or request metadata format only."

/-- `str` of the `TypeError` from serializing a response embedding the
bound method - the only way `json.dumps` fails here (line 910).  No
handler branch builds such a response. -/
def serFailMessage : String :=
  "Response serialization error: Object of type method is not JSON serializable"

/-- A frame as written: the dict whose serialization was printed, and the
printed line itself. -/
structure GuardOut where
  obj : PyVal
  line : String

/-- `error_response["id"] = response["id"]` guarded by
`response.get("id") is not None` (lines 764-766, 812-814, 913-915). -/
def withIdFrom (base : List (String × PyVal)) (resp : PyVal) : PyVal :=
  match resp with
  | .obj kvs =>
    match pyGet kvs "id" with
    | some v => if v.isNull then .obj base else .obj (base ++ [("id", v)])
    | none => .obj base
  | _ => .obj base

/-- The handler of lines 903-921: a serialization error is answered with a
fresh error response (plus the original id, if any); if even that cannot
be serialized the loop breaks and nothing is written. -/
def serializationFailure (resp : PyVal) : Option GuardOut :=
  let e := withIdFrom
    [("jsonrpc", .str "2.0"),
     ("error", .obj [("code", .num (-32603)), ("message", .str serFailMessage)])] resp
  match pyDumps true defaultSep e with
  | some s => some ⟨e, s⟩
  | none => none

/-- The minimal oversize response of lines 805-814. -/
def minimalOversize (resp : PyVal) (size : Nat) : PyVal :=
  withIdFrom
    [("jsonrpc", .str "2.0"),
     ("error", .obj [("code", .num (-32603)),
                     ("message", .str (oversizeMessage size))])] resp

/-- Python `s[:n]` (by code point, as Python slices strings). -/
def pyStrSlice (s : String) (n : Nat) : String := String.mk (s.data.take n)

/-- Lines 789-800: if the response carries `result.content` with a first
item holding a `text` string longer than 50000 characters, that text is
replaced in place by its first 50000 characters plus the truncation
marker; in every other shape nothing changes (and `response_str` is not
recomputed).  Responses built by `handle_request` only ever put a dict
under `result`, a list under `content` and a string under `text`, so the
exotic Python `in`-on-non-dict cases cannot arise here. -/
def truncateContent (resp : PyVal) : Option PyVal :=
  match resp with
  | .obj kvs =>
    match pyGet kvs "result" with
    | some (.obj rkvs) =>
      match pyGet rkvs "content" with
      | some (.arr (.obj fkvs :: restItems)) =>
        match pyGet fkvs "text" with
        | some (.str t) =>
          if 50000 < t.length then
            some (.obj (pySet kvs "result" (.obj (pySet rkvs "content"
              (.arr (.obj (pySet fkvs "text"
                (.str (pyStrSlice t 50000 ++ truncationMarker))) :: restItems))))))
          else none
        | _ => none
      | _ => none
    | _ => none
  | _ => none

/-- Lines 714-817 on a response that passed the validation of 663-679:
serialize compactly without `ensure_ascii` (721), substitute the safe
fallback if the text contains `"undefined"` (729-741), truncate a single
oversized text content item when the frame exceeds 100 KiB (786-800),
and finally collapse to the minimal oversize error when the frame still
exceeds 200 KiB (803-817).  The Python variable `response` keeps pointing
at the original dict through the `"undefined"` substitution, which only
replaces the string; the truncation step both mutates and re-serializes
the dict. -/
def guardSend (r1 : PyVal) : Option GuardOut :=
  match pyDumps false compactSep r1 with
  | none => serializationFailure r1
  | some s0 =>
    let undef := strContains s0 undefinedLiteral
    let obj1 := if undef then safeFallback else r1
    let str1 := if undef then (pyDumps true defaultSep safeFallback).getD "" else s0
    let next :=
      if 100 * 1024 < str1.length then
        match truncateContent r1 with
        | some r2 =>
          match pyDumps true defaultSep r2 with
          | some s2 => (r2, r2, s2)
          | none => (r1, obj1, str1)
        | none => (r1, obj1, str1)
      else (r1, obj1, str1)
    if 200 * 1024 < next.2.2.length then
      let m := minimalOversize next.1 next.2.2.length
      match pyDumps true defaultSep m with
      | some s3 => some ⟨m, s3⟩
      | none => serializationFailure next.1
    else some ⟨next.2.1, next.2.2⟩

/-- The validation of lines 663-712 in front of `guardSend`: notifications
produce no frame; non-dict or `jsonrpc`-less responses are dropped; a
null id is deleted (675-676 warn, 706-709 delete); an id that is not
`str`/`int`/`float` causes the whole response to be dropped (677-679,
making the deletion branch of 710-712 unreachable). -/
def stdioGuard (response? : Option PyVal) : Option GuardOut :=
  match response? with
  | none => none
  | some (.obj kvs) =>
    if (pyGet kvs "jsonrpc").isNone then none
    else
      match pyGet kvs "id" with
      | some v =>
        if v.isNull then guardSend (.obj (pyDel kvs "id"))
        else if v.isStrIntFloat then guardSend (.obj kvs)
        else none
      | none => guardSend (.obj kvs)
  | some _ => none

/-- The error frame printed when an exception escapes `handle_request`
into the loop's generic handler (lines 950-957). -/
def serverErrorFrame (msg : String) : PyVal :=
  .obj [("jsonrpc", .str "2.0"),
        ("error", .obj [("code", .num (-32603)),
                        ("message", .str ("Server error: " ++ msg))])]

/-- Everything `run_stdio` prints to stdout for one parsed input line
(lines 639-923): nothing for non-dict or method-less payloads; otherwise
the progress lines printed during `handle_request` followed by the
guarded terminal frame, if any. -/
def stdioProcess (oracle : ToolOracle) (name : String) (request : PyVal) :
    List String :=
  match request with
  | .obj req =>
    if (pyGet req "method").isNone then []
    else
      match handleRequestCore oracle name (.obj req) with
      | .ok out =>
        out.events.map progressLine ++ ((stdioGuard out.response).map (·.line)).toList
      | .error e => [(pyDumps true defaultSep (serverErrorFrame e)).getD ""]
  | _ => []

/-- The loop state of `run_stdio`: the only variables that survive one
iteration are logging counters/timestamps (lines 609-629); no protocol
state is carried. -/
structure LoopState where
  requestCount : Nat

/-- One iteration of the stdio loop on an already-parsed message. -/
def stdioStep (oracle : ToolOracle) (name : String) (st : LoopState)
    (request : PyVal) : LoopState × List String :=
  (⟨st.requestCount + 1⟩, stdioProcess oracle name request)

/-- The stdout lines of a whole stdio session over a sequence of parsed
messages. -/
def stdioRun (oracle : ToolOracle) (name : String) (requests : List PyVal) :
    List String :=
  (requests.foldl
    (fun acc r =>
      let s := stdioStep oracle name acc.1 r
      (s.1, acc.2 ++ s.2))
    ((⟨0⟩ : LoopState), ([] : List String))).2

/-! ### HTTP transport (`do_POST` on `/mcp` / `/message`, lines 1054-1190) -/

/-- What one POST answers: HTTP status, the JSON object written as the
body, and the body text (`json.dumps` with defaults, line 1113). -/
structure HttpReply where
  status : Nat
  obj : PyVal
  body : String

/-- The 500 handler of lines 1158-1173. -/
def http500 (msg : String) : HttpReply :=
  let e := PyVal.obj
    [("jsonrpc", .str "2.0"),
     ("error", .obj [("code", .num (-32603)),
                     ("message", .str ("Server error: " ++ msg))])]
  ⟨500, e, (pyDumps true defaultSep e).getD ""⟩

/-- The POST path after a successful `json.loads` of a non-empty body:
the `handle_request` response is serialized as-is (no id guard, no size
guard); notifications get the fixed ack body; an exception out of
`handle_request` becomes a 500.  Progress events have no delivery path
in HTTP mode (`_current_mode` is never set) and are dropped. -/
def httpPost (oracle : ToolOracle) (name : String) (request : PyVal) : HttpReply :=
  match handleRequestCore oracle name request with
  | .error e => http500 e
  | .ok out =>
    match out.response with
    | some resp =>
      match pyDumps true defaultSep resp with
      | some body => ⟨200, resp, body⟩
      | none => http500 "Object of type method is not JSON serializable"
    | none =>
      let ack := PyVal.obj [("status", .str "ok"), ("message", .str "Notification processed")]
      ⟨200, ack, (pyDumps true defaultSep ack).getD ""⟩

/-! ### The `get_rfc` tool (lines 2463-2482) -/

/-- Python dict subscript `v[k]`; the error text is `str` of the raised
`KeyError`/`TypeError`. -/
def pyGetItem (v : PyVal) (k : String) : Except String PyVal :=
  match v with
  | .obj kvs =>
    match pyGet kvs k with
    | some x => .ok x
    | none => .error ("\x27" ++ k ++ "\x27")
  | w => .error ("\x27" ++ pyTypeName w ++ "\x27 object is not subscriptable")

/-- Indentation prefix of `json.dumps(..., indent=2)` at a nesting level. -/
def indentOf (level : Nat) : String := String.mk (List.replicate (2 * level) ' ')

mutual
/-- `json.dumps(v, indent=2)` (defaults otherwise: `ensure_ascii=True`,
item separator `,` + newline, key separator `: `). -/
def pyDumps2 (level : Nat) : PyVal → Option String
  | .null => some "null"
  | .bool true => some "true"
  | .bool false => some "false"
  | .num n => some (toString n)
  | .str s => some (qstr true s)
  | .arr [] => some "[]"
  | .arr xs =>
    match pyDumps2List (level + 1) xs with
    | some parts =>
      some ("[\n" ++
        joinSep ",\n" (parts.map (fun p => indentOf (level + 1) ++ p)) ++
        "\n" ++ indentOf level ++ "]")
    | none => none
  | .obj [] => some "\x7b\x7d"
  | .obj kvs =>
    match pyDumps2Obj (level + 1) kvs with
    | some parts =>
      some ("\x7b\n" ++
        joinSep ",\n" (parts.map (fun p => indentOf (level + 1) ++ p)) ++
        "\n" ++ indentOf level ++ "\x7d")
    | none => none
  | .callback => none

def pyDumps2List (level : Nat) : List PyVal → Option (List String)
  | [] => some []
  | v :: rest =>
    match pyDumps2 level v, pyDumps2List level rest with
    | some s, some r => some (s :: r)
    | _, _ => none

def pyDumps2Obj (level : Nat) : List (String × PyVal) → Option (List String)
  | [] => some []
  | (k, v) :: rest =>
    match pyDumps2 level v, pyDumps2Obj level rest with
    | some s, some r => some ((qstr true k ++ ": " ++ s) :: r)
    | _, _ => none
end

/-- `get_rfc` (lines 2463-2482), with the backend abstracted: `fetch` is
the outcome of `await rfc_service.fetch_rfc(number)`.  The `format`
dispatch selects the metadata, the sections, or - in every other case,
including values outside the schema's enum - the whole record; any
exception in the body is formatted into the catch-all error string. -/
def get_rfc (number : String) (fetch : Except String PyVal) (format : String) :
    String :=
  match fetch with
  | .error e => "Error fetching RFC " ++ number ++ ": " ++ e
  | .ok rfc =>
    let selected : Except String PyVal :=
      if format = "metadata" then pyGetItem rfc "metadata"
      else if format = "sections" then pyGetItem rfc "sections"
      else .ok rfc
    match selected with
    | .error e => "Error fetching RFC " ++ number ++ ": " ++ e
    | .ok result =>
      match pyDumps2 0 result with
      | some s => s
      | none =>
        "Error fetching RFC " ++ number ++
          ": Object of type method is not JSON serializable"

/-! ### The request object after `handle_request` (aliasing effect) -/

/-- The caller-supplied request object as it stands after `handle_request`
returns.  The local `arguments` (line 473) aliases
`request["params"]["arguments"]` when that key holds a dict; unwrapping
(line 487) rebinds the local to the inner dict, which is also nested in
the request; the injection of lines 496-498 then mutates whichever dict
the local points at, in place.  Every other branch (other methods,
notifications, unknown or progress-free tools, absent params/arguments,
non-dict arguments) leaves the request unchanged. -/
def handleRequestPost (request : PyVal) : PyVal :=
  match request with
  | .obj req =>
    let requestId := (pyGet req "id").getD .null
    match (pyGet req "method").getD (.str "") with
    | .str m =>
      if m = "tools/call" ∧ ¬ requestId.isNull then
        match pyGet req "params" with
        | some (.obj p) =>
          match pyGet p "name" with
          | some (.str t) =>
            if t ∈ registeredToolNames ∧ t ∈ progressTools then
              match pyGet p "arguments" with
              | some (.obj args) =>
                let flat := PyVal.obj (pySet req "params" (.obj (pySet p "arguments"
                  (.obj (injectProgressParams args requestId)))))
                match args with
                | [(ak, .obj inner)] =>
                  match toolSchemas t with
                  | (ek, _) :: _ =>
                    if ak = ek then
                      .obj (pySet req "params" (.obj (pySet p "arguments"
                        (.obj (pySet args ak
                          (.obj (injectProgressParams inner requestId)))))))
                    else flat
                  | [] => flat
                | _ => flat
              | _ => request
            else request
          | _ => request
        | _ => request
      else request
    | _ => request
  | _ => request

/-- Whether a value is a dict containing the key (for statements). -/
def objHasKey (v : PyVal) (k : String) : Bool :=
  match v with
  | .obj kvs => (pyGet kvs k).isSome
  | _ => false

/-! ### Values and helpers used by the claim statements -/

set_option maxRecDepth 10000

/-- A synthetic payload: `n` copies of one character. -/
def repChar (n : Nat) (c : Char) : String := String.mk (List.replicate n c)

/-- A control character (U+0000), which the JSON encoder expands sixfold. -/
def ctrlChar : Char := Char.ofNat 0

/-- Whether a value is a valid scalar id (string or number). -/
def PyVal.isScalarId : PyVal → Bool
  | .str _ => true
  | .num _ => true
  | _ => false

/-- Whether a frame object either has no `id` field or carries a scalar one. -/
def idFieldOk (v : PyVal) : Bool :=
  match v with
  | .obj kvs =>
    match pyGet kvs "id" with
    | none => true
    | some w => w.isStrIntFloat
  | _ => true

/-- A `tools/list` Request arriving as the very first message. -/
def toolsListFirstReq : PyVal :=
  .obj [("jsonrpc", PyVal.str "2.0"), ("id", PyVal.num 1), ("method", PyVal.str "tools/list")]

/-- A `tools/call` Request arriving as the very first message. -/
def toolsCallFirstReq : PyVal :=
  .obj [("jsonrpc", PyVal.str "2.0"), ("id", PyVal.num 1),
        ("method", PyVal.str "tools/call"),
        ("params", .obj [("name", PyVal.str "get_rfc"),
                         ("arguments", .obj [("number", PyVal.str "2616")])])]

/-- A backend that emits two progress events and returns `"ok"`. -/
def demoOracle : ToolOracle := fun _ _ => ⟨[(50, "halfway"), (100, "done")], .ok "ok"⟩

/-- A `tools/call` Request for `get_rfc` with flat arguments and id 3. -/
def demoCallReq : List (String × PyVal) :=
  [("jsonrpc", PyVal.str "2.0"), ("id", PyVal.num 3),
   ("method", PyVal.str "tools/call"),
   ("params", .obj [("name", PyVal.str "get_rfc"),
                    ("arguments", .obj [("number", PyVal.str "2616")])])]

/-! ## Theorems -/

theorem listContainsSub_subset {pat : List Char} :
    ∀ {l : List Char}, listContainsSub pat l = true → ∀ a ∈ pat, a ∈ l := by
  intro l
  induction l with
  | nil =>
    intro h a ha
    simp [listContainsSub, List.isEmpty_iff] at h
    subst h; cases ha
  | cons c cs ih =>
    intro h a ha
    rw [listContainsSub] at h
    rcases (Bool.or_eq_true _ _).mp h with h | h
    · have hp : pat <+: (c :: cs) := by simpa using h
      exact hp.subset ha
    · exact List.mem_cons_of_mem _ (ih h a ha)

theorem strContains_eq_false (s pat : String) (c : Char)
    (hc : c ∈ pat.data) (hs : c ∉ s.data) : strContains s pat = false := by
  rw [strContains]
  cases h : listContainsSub pat.data s.data
  · rfl
  · exact absurd (listContainsSub_subset h c hc) hs

theorem flatMap_replicate_self {f : Char → List Char} {c : Char} (h : f c = [c]) (n : Nat) :
    (List.replicate n c).flatMap f = List.replicate n c := by
  induction n with
  | zero => simp
  | succ k ih => simp [List.replicate_succ, ih, h]

theorem length_flatMap_replicate (f : Char → List Char) (c : Char) (n : Nat) :
    ((List.replicate n c).flatMap f).length = n * (f c).length := by
  induction n with
  | zero => simp
  | succ k ih => simp [List.replicate_succ, ih]; ring

theorem escString_append (ascii : Bool) (a b : String) :
    escString ascii (a ++ b) = escString ascii a ++ escString ascii b := by
  cases a; cases b
  simp [escString, String.data_append]
  rfl

theorem dumps_tcs_len (ascii : Bool) (sep : Sep) (t : String) :
    (pyDumps ascii sep (toolCallSuccess (.num 1) t)).map String.length =
      some ((escString ascii t).length + 27 +
        (escString ascii "jsonrpc").length + (escString ascii "2.0").length +
        (escString ascii "id").length + (escString ascii "result").length +
        (escString ascii "content").length + (escString ascii "type").length +
        2 * (escString ascii "text").length +
        3 * sep.item.length + 6 * sep.key.length) := by
  simp [toolCallSuccess, scrubNullId, pyGet, PyVal.isNull, pyDumps, pyDumpsObj,
        pyDumpsList, joinSep, qstr, String.length_append,
        show toString (1 : Int) = "1" from rfl]
  have h1 : ("\"" : String).length = 1 := by decide
  have h2 : ("\x7b" : String).length = 1 := by decide
  have h3 : ("[" : String).length = 1 := by decide
  have h4 : ("\"\x7d]\x7d\x7d" : String).length = 5 := by decide
  have h5 : ("1" : String).length = 1 := by decide
  have h6 : ("\x7d" : String).length = 1 := by decide
  have h7 : ("]" : String).length = 1 := by decide
  simp [h1, h2, h3, h4, h5, h6, h7]
  omega

theorem dumps_tcs_nof (t : String) (h : 'f' ∉ (escString false t).data) (s : String)
    (hs : pyDumps false compactSep (toolCallSuccess (.num 1) t) = some s) :
    'f' ∉ s.data := by
  simp [toolCallSuccess, scrubNullId, pyGet, PyVal.isNull, pyDumps, pyDumpsObj,
        pyDumpsList, joinSep, qstr, compactSep,
        show toString (1 : Int) = "1" from rfl] at hs
  have e1 : 'f' ∉ (escString false "jsonrpc").data := by decide
  have e2 : 'f' ∉ (escString false "2.0").data := by decide
  have e3 : 'f' ∉ (escString false "id").data := by decide
  have e4 : 'f' ∉ (escString false "result").data := by decide
  have e5 : 'f' ∉ (escString false "content").data := by decide
  have e6 : 'f' ∉ (escString false "type").data := by decide
  have e7 : 'f' ∉ (escString false "text").data := by decide
  subst hs
  simp [String.data_append]
  exact ⟨e1, e2, e3, e4, e5, e6, e7, h⟩

theorem dumps_err_len (ascii : Bool) (sep : Sep) (m : String) :
    (pyDumps ascii sep (errorResponse (.num 1) m)).map String.length =
      some ((escString ascii m).length + 25 +
        (escString ascii "jsonrpc").length + (escString ascii "2.0").length +
        (escString ascii "error").length + (escString ascii "code").length +
        (escString ascii "message").length + (escString ascii "id").length +
        3 * sep.item.length + 5 * sep.key.length) := by
  simp [errorResponse, PyVal.isNull, pyGet, pyDumps, pyDumpsObj,
        pyDumpsList, joinSep, qstr, String.length_append,
        show toString (1 : Int) = "1" from rfl,
        show toString (-32603 : Int) = "-32603" from rfl]
  have h1 : ("\"" : String).length = 1 := by decide
  have h2 : ("\x7b" : String).length = 1 := by decide
  have h5 : ("1" : String).length = 1 := by decide
  have h6 : ("\x7d" : String).length = 1 := by decide
  have h8 : ("-32603" : String).length = 6 := by decide
  simp [h1, h2, h5, h6, h8]
  omega

theorem take_replicate_of_le {α : Type} (c : α) :
    ∀ (m n : Nat), m ≤ n → (List.replicate n c).take m = List.replicate m c := by
  intro m
  induction m with
  | zero => intro n _; simp
  | succ k ih =>
    intro n h
    cases n with
    | zero => omega
    | succ j =>
      rw [List.replicate_succ, List.replicate_succ, List.take_succ_cons, ih j (by omega)]

theorem repChar_length (n : Nat) (c : Char) : (repChar n c).length = n := by
  simp [repChar]

theorem escString_repChar_a (ascii : Bool) (n : Nat) :
    escString ascii (repChar n 'a') = repChar n 'a' := by
  have h : escChar ascii 'a' = ['a'] := by cases ascii <;> decide
  simp [escString, repChar, flatMap_replicate_self h]

theorem nof_escString_repChar_a (ascii : Bool) (n : Nat) :
    'f' ∉ (escString ascii (repChar n 'a')).data := by
  rw [escString_repChar_a]
  simp [repChar, List.mem_replicate]

theorem truncate_tcs (t : String) (h : 50000 < t.length) :
    truncateContent (toolCallSuccess (.num 1) t) =
      some (toolCallSuccess (.num 1) (pyStrSlice t 50000 ++ truncationMarker)) := by
  simp [truncateContent, toolCallSuccess, scrubNullId, pyGet, pySet, PyVal.isNull, h]

theorem guard_tcs_plain (n : Nat) (h50 : 50000 < n) (h100k : 102400 < 73 + n) :
    ∃ g, stdioGuard (some (toolCallSuccess (.num 1) (repChar n 'a'))) = some g ∧
      g.obj = toolCallSuccess (.num 1) (repChar 50000 'a' ++ truncationMarker) ∧
      g.line.length = 50137 := by
  have hlen_t : (repChar n 'a').length = n := repChar_length n 'a'
  have hesc : escString false (repChar n 'a') = repChar n 'a' := escString_repChar_a false n
  obtain ⟨s0, hs0, hs0len⟩ := Option.map_eq_some'.mp (dumps_tcs_len false compactSep (repChar n 'a'))
  have hs0len' : s0.length = n + 73 := by
    rw [hesc, hlen_t] at hs0len
    have e1 : (escString false "jsonrpc").length = 7 := by decide
    have e2 : (escString false "2.0").length = 3 := by decide
    have e3 : (escString false "id").length = 2 := by decide
    have e4 : (escString false "result").length = 6 := by decide
    have e5 : (escString false "content").length = 7 := by decide
    have e6 : (escString false "type").length = 4 := by decide
    have e7 : (escString false "text").length = 4 := by decide
    have k1 : ("," : String).length = 1 := by decide
    have k2 : (":" : String).length = 1 := by decide
    simp [e1, e2, e3, e4, e5, e6, e7, k1, k2, compactSep] at hs0len
    omega
  have hnof : 'f' ∉ s0.data :=
    dumps_tcs_nof (repChar n 'a') (nof_escString_repChar_a false n) s0 hs0
  have hundef : strContains s0 undefinedLiteral = false :=
    strContains_eq_false s0 undefinedLiteral 'f' (by decide) hnof
  have hguard : stdioGuard (some (toolCallSuccess (.num 1) (repChar n 'a'))) =
      guardSend (toolCallSuccess (.num 1) (repChar n 'a')) := by
    simp [stdioGuard, toolCallSuccess, scrubNullId, pyGet, PyVal.isNull, PyVal.isStrIntFloat]
  have hslice : pyStrSlice (repChar n 'a') 50000 = repChar 50000 'a' := by
    unfold pyStrSlice repChar
    rw [show (String.mk (List.replicate n 'a')).data = List.replicate n 'a' from rfl]
    rw [take_replicate_of_le 'a' 50000 n (Nat.le_of_lt h50)]
  have htrunc : truncateContent (toolCallSuccess (.num 1) (repChar n 'a')) =
      some (toolCallSuccess (.num 1) (repChar 50000 'a' ++ truncationMarker)) := by
    rw [truncate_tcs (repChar n 'a') (by rw [hlen_t]; exact h50), hslice]
  obtain ⟨s2, hs2, hs2len⟩ := Option.map_eq_some'.mp
    (dumps_tcs_len true defaultSep (repChar 50000 'a' ++ truncationMarker))
  have hs2len' : s2.length = 50137 := by
    rw [escString_append, String.length_append, escString_repChar_a, repChar_length,
        show (escString true truncationMarker).length = 55 from by decide,
        show (escString true "jsonrpc").length = 7 from by decide,
        show (escString true "2.0").length = 3 from by decide,
        show (escString true "id").length = 2 from by decide,
        show (escString true "result").length = 6 from by decide,
        show (escString true "content").length = 7 from by decide,
        show (escString true "type").length = 4 from by decide,
        show (escString true "text").length = 4 from by decide,
        show defaultSep.item.length = 2 from by decide,
        show defaultSep.key.length = 2 from by decide] at hs2len
    omega
  refine ⟨⟨toolCallSuccess (.num 1) (repChar 50000 'a' ++ truncationMarker), s2⟩, ?_, rfl, hs2len'⟩
  rw [hguard]
  unfold guardSend
  rw [hs0]
  simp only [hundef, htrunc, hs2, Bool.false_eq_true, if_false, ite_false]
  rw [if_pos (by omega : 100 * 1024 < s0.length)]
  simp only [htrunc, hs2]
  rw [if_neg (by omega : ¬ 200 * 1024 < s2.length)]

theorem escString_repChar_ctrl_len (ascii : Bool) (n : Nat) :
    (escString ascii (repChar n ctrlChar)).length = 6 * n := by
  have h : (escChar ascii ctrlChar).length = 6 := by cases ascii <;> decide
  simp [escString, repChar, length_flatMap_replicate, h]
  ring

theorem nof_escString_repChar_ctrl (ascii : Bool) (n : Nat) :
    'f' ∉ (escString ascii (repChar n ctrlChar)).data := by
  have h : 'f' ∉ escChar ascii ctrlChar := by cases ascii <;> decide
  simp [escString, repChar]
  intro x hx
  exact h hx

theorem dumps_err_nof (m : String) (h : 'f' ∉ (escString false m).data) (s : String)
    (hs : pyDumps false compactSep (errorResponse (.num 1) m) = some s) :
    'f' ∉ s.data := by
  simp [errorResponse, PyVal.isNull, pyGet, pyDumps, pyDumpsObj,
        pyDumpsList, joinSep, qstr, compactSep,
        show toString (1 : Int) = "1" from rfl,
        show toString (-32603 : Int) = "-32603" from rfl] at hs
  have e1 : 'f' ∉ (escString false "jsonrpc").data := by decide
  have e2 : 'f' ∉ (escString false "2.0").data := by decide
  have e3 : 'f' ∉ (escString false "error").data := by decide
  have e4 : 'f' ∉ (escString false "code").data := by decide
  have e5 : 'f' ∉ (escString false "message").data := by decide
  have e6 : 'f' ∉ (escString false "id").data := by decide
  subst hs
  simp [String.data_append]
  exact ⟨e1, e2, e3, e4, e5, h, e6⟩

theorem pyStrSlice_repChar (c : Char) (m n : Nat) (h : m ≤ n) :
    pyStrSlice (repChar n c) m = repChar m c := by
  unfold pyStrSlice repChar
  rw [show (String.mk (List.replicate n c)).data = List.replicate n c from rfl]
  rw [take_replicate_of_le c m n h]

theorem guard_tcs_ctrl (n : Nat) (h50 : 50000 < n) :
    ∃ g, stdioGuard (some (toolCallSuccess (.num 1) (repChar n ctrlChar))) = some g ∧
      g.obj = errorResponse (.num 1) (oversizeMessage 300137) ∧
      g.line.length = 176 := by
  obtain ⟨s0, hs0, hs0len⟩ :=
    Option.map_eq_some'.mp (dumps_tcs_len false compactSep (repChar n ctrlChar))
  have hs0len' : s0.length = 6 * n + 73 := by
    rw [escString_repChar_ctrl_len,
        show (escString false "jsonrpc").length = 7 from by decide,
        show (escString false "2.0").length = 3 from by decide,
        show (escString false "id").length = 2 from by decide,
        show (escString false "result").length = 6 from by decide,
        show (escString false "content").length = 7 from by decide,
        show (escString false "type").length = 4 from by decide,
        show (escString false "text").length = 4 from by decide,
        show compactSep.item.length = 1 from by decide,
        show compactSep.key.length = 1 from by decide] at hs0len
    omega
  have hnof : 'f' ∉ s0.data :=
    dumps_tcs_nof (repChar n ctrlChar) (nof_escString_repChar_ctrl false n) s0 hs0
  have hundef : strContains s0 undefinedLiteral = false :=
    strContains_eq_false s0 undefinedLiteral 'f' (by decide) hnof
  have hguard : stdioGuard (some (toolCallSuccess (.num 1) (repChar n ctrlChar))) =
      guardSend (toolCallSuccess (.num 1) (repChar n ctrlChar)) := by
    simp [stdioGuard, toolCallSuccess, scrubNullId, pyGet, PyVal.isNull, PyVal.isStrIntFloat]
  have htrunc : truncateContent (toolCallSuccess (.num 1) (repChar n ctrlChar)) =
      some (toolCallSuccess (.num 1) (repChar 50000 ctrlChar ++ truncationMarker)) := by
    rw [truncate_tcs (repChar n ctrlChar) (by rw [repChar_length]; omega),
        pyStrSlice_repChar ctrlChar 50000 n (by omega)]
  obtain ⟨s2, hs2, hs2len⟩ := Option.map_eq_some'.mp
    (dumps_tcs_len true defaultSep (repChar 50000 ctrlChar ++ truncationMarker))
  have hs2len' : s2.length = 300137 := by
    rw [escString_append, String.length_append, escString_repChar_ctrl_len,
        show (escString true truncationMarker).length = 55 from by decide,
        show (escString true "jsonrpc").length = 7 from by decide,
        show (escString true "2.0").length = 3 from by decide,
        show (escString true "id").length = 2 from by decide,
        show (escString true "result").length = 6 from by decide,
        show (escString true "content").length = 7 from by decide,
        show (escString true "type").length = 4 from by decide,
        show (escString true "text").length = 4 from by decide,
        show defaultSep.item.length = 2 from by decide,
        show defaultSep.key.length = 2 from by decide] at hs2len
    omega
  have hmin : minimalOversize
      (toolCallSuccess (.num 1) (repChar 50000 ctrlChar ++ truncationMarker)) 300137 =
      errorResponse (.num 1) (oversizeMessage 300137) := by
    simp [minimalOversize, withIdFrom, errorResponse, toolCallSuccess, scrubNullId,
          pyGet, PyVal.isNull]
  have hescmsg : (escString true (oversizeMessage 300137)).length = 107 := by
    unfold oversizeMessage
    rw [escString_append, escString_append, String.length_append, String.length_append,
        show (escString true "Response too large for stdio transport (").length = 40 from by decide,
        show (escString true (toString (300137 : Nat))).length = 6 from by decide,
        show (escString true " bytes). Try using HTTP mode or request metadata format only.").length = 61 from by decide]
  obtain ⟨s3, hs3, hs3len⟩ := Option.map_eq_some'.mp
    (dumps_err_len true defaultSep (oversizeMessage 300137))
  have hs3len' : s3.length = 176 := by
    rw [hescmsg,
        show (escString true "jsonrpc").length = 7 from by decide,
        show (escString true "2.0").length = 3 from by decide,
        show (escString true "error").length = 5 from by decide,
        show (escString true "code").length = 4 from by decide,
        show (escString true "message").length = 7 from by decide,
        show (escString true "id").length = 2 from by decide,
        show defaultSep.item.length = 2 from by decide,
        show defaultSep.key.length = 2 from by decide] at hs3len
    omega
  refine ⟨⟨errorResponse (.num 1) (oversizeMessage 300137), s3⟩, ?_, rfl, hs3len'⟩
  rw [hguard]
  unfold guardSend
  rw [hs0]
  simp only [hundef, Bool.false_eq_true, if_false, ite_false]
  rw [if_pos (by omega : 100 * 1024 < s0.length)]
  simp only [htrunc, hs2]
  rw [if_pos (by omega : 200 * 1024 < s2.length), hs2len', hmin, hs3]

theorem truncate_err_none (m : String) :
    truncateContent (errorResponse (.num 1) m) = none := by
  simp [truncateContent, errorResponse, pyGet, PyVal.isNull]

theorem guard_err_oversize (m : String)
    (hesc : escString false m = m)
    (hnofm : 'f' ∉ (escString false m).data)
    (hbig : 204800 < m.length + 61) :
    ∃ g, stdioGuard (some (errorResponse (.num 1) m)) = some g ∧
      g.obj = errorResponse (.num 1) (oversizeMessage (m.length + 61)) ∧
      g.line.length = (escString true (oversizeMessage (m.length + 61))).length + 69 := by
  obtain ⟨s0, hs0, hs0len⟩ :=
    Option.map_eq_some'.mp (dumps_err_len false compactSep m)
  have hs0len' : s0.length = m.length + 61 := by
    rw [hesc,
        show (escString false "jsonrpc").length = 7 from by decide,
        show (escString false "2.0").length = 3 from by decide,
        show (escString false "error").length = 5 from by decide,
        show (escString false "code").length = 4 from by decide,
        show (escString false "message").length = 7 from by decide,
        show (escString false "id").length = 2 from by decide,
        show compactSep.item.length = 1 from by decide,
        show compactSep.key.length = 1 from by decide] at hs0len
    omega
  have hnof : 'f' ∉ s0.data := dumps_err_nof m hnofm s0 hs0
  have hundef : strContains s0 undefinedLiteral = false :=
    strContains_eq_false s0 undefinedLiteral 'f' (by decide) hnof
  have hguard : stdioGuard (some (errorResponse (.num 1) m)) =
      guardSend (errorResponse (.num 1) m) := by
    simp [stdioGuard, errorResponse, pyGet, PyVal.isNull, PyVal.isStrIntFloat]
  have hmin : minimalOversize (errorResponse (.num 1) m) (m.length + 61) =
      errorResponse (.num 1) (oversizeMessage (m.length + 61)) := by
    simp [minimalOversize, withIdFrom, errorResponse, pyGet, PyVal.isNull]
  obtain ⟨s3, hs3, hs3len⟩ := Option.map_eq_some'.mp
    (dumps_err_len true defaultSep (oversizeMessage (m.length + 61)))
  have hs3len' : s3.length = (escString true (oversizeMessage (m.length + 61))).length + 69 := by
    rw [show (escString true "jsonrpc").length = 7 from by decide,
        show (escString true "2.0").length = 3 from by decide,
        show (escString true "error").length = 5 from by decide,
        show (escString true "code").length = 4 from by decide,
        show (escString true "message").length = 7 from by decide,
        show (escString true "id").length = 2 from by decide,
        show defaultSep.item.length = 2 from by decide,
        show defaultSep.key.length = 2 from by decide] at hs3len
    omega
  refine ⟨⟨errorResponse (.num 1) (oversizeMessage (m.length + 61)), s3⟩, ?_, rfl, hs3len'⟩
  rw [hguard]
  unfold guardSend
  rw [hs0]
  simp only [hundef, Bool.false_eq_true, if_false, ite_false]
  rw [if_pos (by omega : 100 * 1024 < s0.length)]
  simp only [truncate_err_none]
  rw [if_pos (by omega : 200 * 1024 < s0.length), hs0len', hmin, hs3]

/-- C4 (counterexample): a 150 KiB single-text-item response made of
control characters serializes over 200 KiB, so it skips truncation and
collapses to the minimal error frame (no `result` key survives); and a
response whose serialization is exactly 5 MB but whose text is plain
ASCII is truncated to the 50137-byte result frame, not the minimal
error, refuting both universally-stated halves of the claim. -/
theorem stdio_size_degradation_cex :
    (repChar (150 * 1024) ctrlChar).length = 150 * 1024 ∧
    (stdioGuard (some (toolCallSuccess (.num 1) (repChar (150 * 1024) ctrlChar)))).map
      (fun g => objHasKey g.obj "result") = some false ∧
    (pyDumps false compactSep
      (toolCallSuccess (.num 1) (repChar (5 * 1024 * 1024 - 73) 'a'))).map String.length =
      some (5 * 1024 * 1024) ∧
    (stdioGuard (some (toolCallSuccess (.num 1) (repChar (5 * 1024 * 1024 - 73) 'a')))).map
      (fun g => (objHasKey g.obj "error", g.line.length)) = some (false, 50137) := by
  refine ⟨repChar_length _ _, ?_, ?_, ?_⟩
  · obtain ⟨g, hg, hobj, hlen⟩ := guard_tcs_ctrl (150 * 1024) (by omega)
    rw [hg]
    simp only [Option.map_some']
    rw [hobj]
    simp [errorResponse, objHasKey, pyGet, PyVal.isNull]
  · rw [dumps_tcs_len]
    simp only [Option.some.injEq]
    rw [escString_repChar_a, repChar_length,
        show (escString false "jsonrpc").length = 7 from by decide,
        show (escString false "2.0").length = 3 from by decide,
        show (escString false "id").length = 2 from by decide,
        show (escString false "result").length = 6 from by decide,
        show (escString false "content").length = 7 from by decide,
        show (escString false "type").length = 4 from by decide,
        show (escString false "text").length = 4 from by decide,
        show compactSep.item.length = 1 from by decide,
        show compactSep.key.length = 1 from by decide]
  · obtain ⟨g, hg, hobj, hlen⟩ := guard_tcs_plain (5 * 1024 * 1024 - 73) (by omega) (by omega)
    rw [hg]
    simp only [Option.map_some']
    rw [hobj, hlen]
    simp [toolCallSuccess, scrubNullId, objHasKey, pyGet, PyVal.isNull]

/-- C4 (amended): for the synthetic plain-ASCII payloads the ladder
behaves as described: a 150 KiB plain-text tool response is truncated to
50000 characters plus the truncation marker with the re-serialized frame
at most 100 KiB; and an error response serializing to exactly 5 MB
collapses to the minimal oversize Error Response of under 1 KiB that
keeps the original id. -/
theorem stdio_size_degradation_amended :
    ((repChar (150 * 1024) 'a').length = 150 * 1024 ∧
     ∃ g, stdioGuard (some (toolCallSuccess (.num 1) (repChar (150 * 1024) 'a'))) = some g ∧
       g.obj = toolCallSuccess (.num 1) (repChar 50000 'a' ++ truncationMarker) ∧
       (repChar 50000 'a' ++ truncationMarker).length ≤ 50 * 1024 + truncationMarker.length ∧
       g.line.length ≤ 100 * 1024) ∧
    ((pyDumps false compactSep
        (errorResponse (.num 1) (repChar (5 * 1024 * 1024 - 61) 'a'))).map String.length =
          some (5 * 1024 * 1024) ∧
     ∃ g, stdioGuard (some (errorResponse (.num 1) (repChar (5 * 1024 * 1024 - 61) 'a'))) =
         some g ∧
       g.obj = errorResponse (.num 1) (oversizeMessage (5 * 1024 * 1024)) ∧
       objHasKey g.obj "id" = true ∧
       g.line.length < 1024) := by
  constructor
  · refine ⟨repChar_length _ _, ?_⟩
    obtain ⟨g, hg, hobj, hlen⟩ := guard_tcs_plain (150 * 1024) (by omega) (by omega)
    refine ⟨g, hg, hobj, ?_, by omega⟩
    rw [String.length_append, repChar_length]
    omega
  · have hlen61 : (repChar (5 * 1024 * 1024 - 61) 'a').length + 61 = 5 * 1024 * 1024 := by
      rw [repChar_length]
    constructor
    · rw [dumps_err_len]
      simp only [Option.some.injEq]
      rw [escString_repChar_a, repChar_length,
          show (escString false "jsonrpc").length = 7 from by decide,
          show (escString false "2.0").length = 3 from by decide,
          show (escString false "error").length = 5 from by decide,
          show (escString false "code").length = 4 from by decide,
          show (escString false "message").length = 7 from by decide,
          show (escString false "id").length = 2 from by decide,
          show compactSep.item.length = 1 from by decide,
          show compactSep.key.length = 1 from by decide]
    · obtain ⟨g, hg, hobj, hlen⟩ := guard_err_oversize (repChar (5 * 1024 * 1024 - 61) 'a')
        (escString_repChar_a false _) (nof_escString_repChar_a false _)
        (by rw [repChar_length]; omega)
      rw [hlen61] at hobj hlen
      refine ⟨g, hg, hobj, ?_, ?_⟩
      · rw [hobj]
        simp [errorResponse, objHasKey, pyGet, PyVal.isNull]
      · rw [hlen]
        have hescmsg : (escString true (oversizeMessage (5 * 1024 * 1024))).length = 108 := by
          unfold oversizeMessage
          rw [escString_append, escString_append, String.length_append, String.length_append,
              show (escString true "Response too large for stdio transport (").length = 40 from
                by decide,
              show (escString true (toString (5 * 1024 * 1024 : Nat))).length = 7 from by decide,
              show (escString true
                " bytes). Try using HTTP mode or request metadata format only.").length = 61 from
                by decide]
        omega

theorem errorResponse_id (i : PyVal) (msg : String) (h : i.isNull = false) :
    ∃ kvs, errorResponse i msg = .obj kvs ∧ pyGet kvs "id" = some i := by
  refine ⟨[("jsonrpc", PyVal.str "2.0"),
           ("error", PyVal.obj [("code", PyVal.num (-32603)), ("message", PyVal.str msg)]),
           ("id", i)], by simp [errorResponse, h], ?_⟩
  simp [pyGet]

/-- C7: an `initialize` message with no id (or a null id) is a protocol
violation answered by nothing: `handle_request` returns the no-response
outcome and no frame is written on stdio. -/
theorem initialize_notification_no_response (oracle : ToolOracle) (name : String)
    (req : List (String × PyVal))
    (hm : pyGet req "method" = some (.str "initialize"))
    (hid : ((pyGet req "id").getD .null).isNull = true)
    (hsafe : PyVal.jsonSafe (.obj req) = true) :
    handleRequest oracle name (.obj req) = none := by
  unfold handleRequest handleRequestCore
  simp only [hm]
  simp [hid, hsafe]

theorem initialize_notification_no_response_witness :
    pyGet [("method", PyVal.str "initialize")] "method" = some (.str "initialize") ∧
    ((pyGet [("method", PyVal.str "initialize")] "id").getD .null).isNull = true ∧
    PyVal.jsonSafe (.obj [("method", PyVal.str "initialize")]) = true ∧
    handleRequest trivOracle mcpServerName (.obj [("method", PyVal.str "initialize")]) = none :=
  ⟨rfl, rfl, rfl,
   initialize_notification_no_response trivOracle mcpServerName _ rfl rfl rfl⟩

theorem initializeResponse_id (name : String) (i : PyVal) (h : i.isNull = false) :
    ∃ kvs, initializeResponse name i = .obj kvs ∧ pyGet kvs "id" = some i := by
  refine ⟨[("jsonrpc", PyVal.str "2.0"), ("id", i), ("result", initializeResult name)],
          ?_, by simp [pyGet]⟩
  simp [initializeResponse, scrubNullId, pyGet, h]

theorem toolsListResponse_id (i : PyVal) (h : i.isNull = false) :
    ∃ kvs, toolsListResponse i = .obj kvs ∧ pyGet kvs "id" = some i := by
  refine ⟨[("jsonrpc", PyVal.str "2.0"), ("id", i),
           ("result", .obj [("tools", .arr (registeredToolNames.map toolsListEntry))])],
          ?_, by simp [pyGet]⟩
  simp [toolsListResponse, scrubNullId, pyGet, h]

theorem toolCallSuccess_id (i : PyVal) (s : String) (h : i.isNull = false) :
    ∃ kvs, toolCallSuccess i s = .obj kvs ∧ pyGet kvs "id" = some i := by
  refine ⟨[("jsonrpc", PyVal.str "2.0"), ("id", i),
           ("result", .obj [("content",
             .arr [.obj [("type", .str "text"), ("text", .str s)]])])],
          ?_, by simp [pyGet]⟩
  simp [toolCallSuccess, scrubNullId, pyGet, h]

/-- C2: every Response `handle_request` produces for a Request carrying a
present scalar id (string or number) carries back exactly that id, for
every handled method, error responses included. -/
theorem response_echoes_request_id (oracle : ToolOracle) (name : String)
    (req : List (String × PyVal)) (i : PyVal)
    (hi : (pyGet req "id").getD .null = i)
    (hscalar : PyVal.isScalarId i = true)
    (resp : PyVal) (hresp : handleRequest oracle name (.obj req) = some resp) :
    ∃ kvs, resp = .obj kvs ∧ pyGet kvs "id" = some i := by
  have hnn : i.isNull = false := by
    cases i <;> simp_all [PyVal.isScalarId, PyVal.isNull]
  unfold handleRequest handleRequestCore at hresp
  simp only [hi] at hresp
  rcases hm : (pyGet req "method").getD (.str "") with _ | b | k | m | xs | kvs0 | _ <;>
      simp only [hm] at hresp <;>
    try (simp only [Option.some.injEq] at hresp; subst hresp; exact errorResponse_id i _ hnn)
  by_cases h1 : m = "initialize"
  · simp only [h1, if_true, ite_true, hnn, Bool.false_eq_true, if_false, ite_false] at hresp
    by_cases hsafe : PyVal.jsonSafe (.obj req) = true
    · simp only [hsafe, not_true, if_false, ite_false, Bool.not_true] at hresp
      rcases hip : initParamsError ((pyGet req "params").getD (.obj [])) with _ | msg <;>
          simp only [hip] at hresp <;>
        simp only [Option.some.injEq] at hresp <;> subst hresp
      · exact initializeResponse_id name i hnn
      · exact errorResponse_id i _ hnn
    · rw [eq_false_of_ne_true hsafe] at hresp
      simp at hresp
  · simp only [h1, if_false, ite_false] at hresp
    by_cases h2 : m = "tools/list"
    · simp only [h2, if_true, ite_true, hnn, Bool.false_eq_true, if_false, ite_false,
                 Option.some.injEq] at hresp
      subst hresp
      exact toolsListResponse_id i hnn
    · simp only [h2, if_false, ite_false] at hresp
      by_cases h3 : m = "tools/call"
      · simp only [h3, if_true, ite_true, hnn, Bool.false_eq_true, if_false, ite_false] at hresp
        rcases hp : (pyGet req "params").getD (.obj []) with _ | b2 | k2 | s2 | xs2 | p | _ <;>
            simp only [hp] at hresp <;>
          try (simp only [Option.some.injEq] at hresp; subst hresp; exact errorResponse_id i _ hnn)
        rcases hn : (pyGet p "name").getD .null with _ | b3 | k3 | t | xs3 | kvs3 | _ <;>
            simp only [hn] at hresp <;>
          try (simp only [Option.some.injEq] at hresp; subst hresp; exact errorResponse_id i _ hnn)
        by_cases ht : t ∈ registeredToolNames
        · simp only [ht, if_true, ite_true] at hresp
          rcases ha : (pyGet p "arguments").getD (.obj []) with _ | b4 | k4 | s4 | xs4 | args | _ <;>
              simp only [ha] at hresp <;>
            try (simp only [Option.some.injEq] at hresp; subst hresp;
                 exact errorResponse_id i _ hnn)
          rcases ho : (oracle t (if t ∈ progressTools then
              injectProgressParams (resolveArguments t args) i
            else resolveArguments t args)).result with rs | re <;>
              simp only [ho, Option.some.injEq] at hresp <;> subst hresp
          · exact errorResponse_id i rs hnn
          · exact toolCallSuccess_id i re hnn
        · simp only [ht, if_false, ite_false, Option.some.injEq] at hresp
          subst hresp
          exact errorResponse_id i _ hnn
      · simp only [h3, if_false, ite_false] at hresp
        by_cases h4 : m = "notifications/initialized"
        · simp only [h4, if_true, ite_true] at hresp
          exact Option.noConfusion hresp
        · simp only [h4, if_false, ite_false] at hresp
          by_cases h5 : strStartsWith m "notifications/" = true
          · simp only [h5, if_true, ite_true] at hresp
            exact Option.noConfusion hresp
          · simp only [eq_false_of_ne_true h5, Bool.false_eq_true, if_false, ite_false,
                         Option.some.injEq] at hresp
            subst hresp
            exact errorResponse_id i _ hnn

theorem pyGet_append (a b : List (String × PyVal)) (k : String) :
    pyGet (a ++ b) k = match pyGet a k with | some v => some v | none => pyGet b k := by
  induction a with
  | nil => simp [pyGet]
  | cons kv rest ih =>
    rw [List.cons_append, pyGet, pyGet]
    by_cases h : kv.1 = k
    · simp [h]
    · simp only [h, if_false, ite_false]
      exact ih

theorem pyGet_pyDel_self (kvs : List (String × PyVal)) (k : String) :
    pyGet (pyDel kvs k) k = none := by
  induction kvs with
  | nil => simp [pyDel, pyGet]
  | cons kv rest ih =>
    by_cases h : kv.1 = k
    · simpa [pyDel, h] using ih
    · simpa [pyDel, pyGet, h] using ih

theorem pyGet_none_any_false (kvs : List (String × PyVal)) (k : String)
    (h : pyGet kvs k = none) : (kvs.any (fun kv => kv.1 = k)) = false := by
  induction kvs with
  | nil => simp
  | cons kv rest ih =>
    rw [pyGet] at h
    by_cases hk : kv.1 = k
    · simp [hk] at h
    · simp only [hk, if_false, ite_false] at h
      simp [hk, ih h]

theorem pySet_absent (kvs : List (String × PyVal)) (k : String) (v : PyVal)
    (h : pyGet kvs k = none) : pySet kvs k v = kvs ++ [(k, v)] := by
  simp [pySet, pyGet_none_any_false kvs k h]

theorem pyGet_map_setter (kvs : List (String × PyVal)) (k k' : String) (v : PyVal)
    (h : k' ≠ k) :
    pyGet (kvs.map (fun kv => if kv.1 = k then (k, v) else kv)) k' = pyGet kvs k' := by
  induction kvs with
  | nil => rfl
  | cons kv rest ih =>
    rw [List.map_cons, pyGet, pyGet]
    by_cases hk : kv.1 = k
    · rw [if_pos hk, if_neg (show ¬ ((k, v).1 = k') from fun e => h e.symm),
          if_neg (show ¬ kv.1 = k' from by rw [hk]; exact fun e => h e.symm), ih]
    · rw [if_neg hk]
      by_cases hk' : kv.1 = k'
      · rw [if_pos hk', if_pos hk']
      · rw [if_neg hk', if_neg hk', ih]

theorem pyGet_map_setter_self (kvs : List (String × PyVal)) (k : String) (v w : PyVal)
    (h : pyGet kvs k = some w) :
    pyGet (kvs.map (fun kv => if kv.1 = k then (k, v) else kv)) k = some v := by
  induction kvs with
  | nil => simp [pyGet] at h
  | cons kv rest ih =>
    rw [pyGet] at h
    rw [List.map_cons, pyGet]
    by_cases hk : kv.1 = k
    · rw [if_pos hk, if_pos (show ((k, v).1 = k) from rfl)]
    · rw [if_neg hk] at h
      rw [if_neg hk, if_neg hk]
      exact ih h

theorem pyGet_pySet_other (kvs : List (String × PyVal)) (k k' : String) (v : PyVal)
    (h : k' ≠ k) : pyGet (pySet kvs k v) k' = pyGet kvs k' := by
  unfold pySet
  by_cases hc : (kvs.any (fun kv => kv.1 = k)) = true
  · rw [if_pos hc]
    exact pyGet_map_setter kvs k k' v h
  · rw [if_neg hc, pyGet_append]
    cases hg : pyGet kvs k'
    · simp only [hg]
      rw [pyGet, if_neg (show ¬ k = k' from fun e => h e.symm)]
      rfl
    · simp only [hg]

theorem pyGet_pySet_self (kvs : List (String × PyVal)) (k : String) (v w : PyVal)
    (h : pyGet kvs k = some w) : pyGet (pySet kvs k v) k = some v := by
  unfold pySet
  have hany : (kvs.any (fun kv => kv.1 = k)) = true := by
    induction kvs with
    | nil => simp [pyGet] at h
    | cons kv rest ih =>
      rw [pyGet] at h
      by_cases hk : kv.1 = k
      · simp [hk]
      · rw [if_neg hk] at h
        simp [hk, ih h]
  rw [if_pos hany]
  exact pyGet_map_setter_self kvs k v w h

theorem truncate_idField (r1 r2 : PyVal) (h : truncateContent r1 = some r2) :
    idFieldOk r2 = idFieldOk r1 := by
  unfold truncateContent at h
  repeat split at h
  all_goals first
    | exact Option.noConfusion h
    | (rename_i kvs _ _ _ _ _ _ _
       cases h
       simp only [idFieldOk]
       rw [pyGet_pySet_other _ _ _ _ (by decide)])

theorem withIdFrom_idOk (base : List (String × PyVal)) (hb : pyGet base "id" = none)
    (resp : PyVal) (hr : idFieldOk resp = true) :
    idFieldOk (withIdFrom base resp) = true := by
  unfold withIdFrom
  split
  · rename_i kvs
    split
    · rename_i w hw
      simp only [idFieldOk, hw] at hr
      split
      · simp [idFieldOk, hb]
      · simp only [idFieldOk, pyGet_append, hb]
        rw [pyGet, if_pos rfl]
        exact hr
    · simp [idFieldOk, hb]
  · simp [idFieldOk, hb]

theorem serializationFailure_idOk (resp : PyVal) (hr : idFieldOk resp = true)
    (g : GuardOut) (h : serializationFailure resp = some g) : idFieldOk g.obj = true := by
  unfold serializationFailure at h
  cases hd : pyDumps true defaultSep (withIdFrom
      [("jsonrpc", PyVal.str "2.0"),
       ("error", PyVal.obj [("code", PyVal.num (-32603)),
                            ("message", PyVal.str serFailMessage)])] resp) with
  | none =>
    simp only [hd] at h
    exact Option.noConfusion h
  | some s =>
    simp only [hd] at h
    cases h
    refine withIdFrom_idOk _ ?_ resp hr
    rfl

theorem guardSend_idOk (r1 : PyVal) (hr : idFieldOk r1 = true)
    (g : GuardOut) (h : guardSend r1 = some g) : idFieldOk g.obj = true := by
  unfold guardSend at h
  cases hd : pyDumps false compactSep r1 with
  | none =>
    rw [hd] at h
    exact serializationFailure_idOk r1 hr g h
  | some s0 =>
    rw [hd] at h
    by_cases hu : strContains s0 undefinedLiteral = true
    · simp only [hu, if_true, ite_true] at h
      rw [if_neg (by decide :
            ¬ 100 * 1024 < ((pyDumps true defaultSep safeFallback).getD "").length)] at h
      rw [if_neg (by decide :
            ¬ 200 * 1024 < ((pyDumps true defaultSep safeFallback).getD "").length)] at h
      simp only [Option.some.injEq] at h
      subst h
      exact (by decide : idFieldOk safeFallback = true)
    · simp only [eq_false_of_ne_true hu, Bool.false_eq_true, if_false, ite_false] at h
      by_cases hs : 100 * 1024 < s0.length
      · rw [if_pos hs] at h
        cases htr : truncateContent r1 with
        | none =>
          simp only [htr] at h
          by_cases h2 : 200 * 1024 < s0.length
          · rw [if_pos h2] at h
            cases hd3 : pyDumps true defaultSep (minimalOversize r1 s0.length) with
            | none =>
              rw [hd3] at h
              exact serializationFailure_idOk r1 hr g h
            | some s3 =>
              rw [hd3] at h
              cases h
              refine withIdFrom_idOk _ ?_ r1 hr
              rfl
          · rw [if_neg h2] at h
            cases h
            exact hr
        | some r2 =>
          simp only [htr] at h
          cases hd2 : pyDumps true defaultSep r2 with
          | none =>
            simp only [hd2] at h
            by_cases h2 : 200 * 1024 < s0.length
            · rw [if_pos h2] at h
              cases hd3 : pyDumps true defaultSep (minimalOversize r1 s0.length) with
              | none =>
                rw [hd3] at h
                exact serializationFailure_idOk r1 hr g h
              | some s3 =>
                rw [hd3] at h
                cases h
                refine withIdFrom_idOk _ ?_ r1 hr
                rfl
            · rw [if_neg h2] at h
              cases h
              exact hr
          | some s2 =>
            simp only [hd2] at h
            have hr2 : idFieldOk r2 = true := by rw [truncate_idField r1 r2 htr]; exact hr
            by_cases h2 : 200 * 1024 < s2.length
            · rw [if_pos h2] at h
              cases hd3 : pyDumps true defaultSep (minimalOversize r2 s2.length) with
              | none =>
                rw [hd3] at h
                exact serializationFailure_idOk r2 hr2 g h
              | some s3 =>
                rw [hd3] at h
                cases h
                refine withIdFrom_idOk _ ?_ r2 hr2
                rfl
            · rw [if_neg h2] at h
              cases h
              exact hr2
      · rw [if_neg hs] at h
        rw [if_neg (by omega : ¬ 200 * 1024 < s0.length)] at h
        cases h
        exact hr

theorem stdioGuard_idOk (resp? : Option PyVal) (g : GuardOut)
    (h : stdioGuard resp? = some g) : idFieldOk g.obj = true := by
  cases resp? with
  | none => exact Option.noConfusion (by simpa only [stdioGuard] using h)
  | some v =>
    cases v <;> simp only [stdioGuard] at h <;> try exact Option.noConfusion h
    rename_i kvs
    by_cases hj : (pyGet kvs "jsonrpc").isNone = true
    · rw [if_pos hj] at h
      exact Option.noConfusion h
    · rw [if_neg hj] at h
      cases hid : pyGet kvs "id" with
      | none =>
        rw [hid] at h
        replace h : guardSend (PyVal.obj kvs) = some g := h
        exact guardSend_idOk _ (by simp [idFieldOk, hid]) g h
      | some w =>
        rw [hid] at h
        replace h : (if w.isNull = true then guardSend (PyVal.obj (pyDel kvs "id"))
            else if w.isStrIntFloat = true then guardSend (PyVal.obj kvs) else none) =
            some g := h
        by_cases hw : w.isNull = true
        · rw [if_pos hw] at h
          refine guardSend_idOk _ ?_ g h
          simp [idFieldOk, pyGet_pyDel_self]
        · rw [if_neg hw] at h
          by_cases hsc : w.isStrIntFloat = true
          · rw [if_pos hsc] at h
            exact guardSend_idOk _ (by simp [idFieldOk, hid, hsc]) g h
          · rw [if_neg hsc] at h
            exact Option.noConfusion h

theorem handleRequest_response_shape (oracle : ToolOracle) (name : String)
    (req : List (String × PyVal)) (resp : PyVal)
    (hresp : handleRequest oracle name (.obj req) = some resp) :
    (∃ m, resp = errorResponse ((pyGet req "id").getD .null) m) ∨
    (((pyGet req "id").getD .null).isNull = false ∧
     (resp = initializeResponse name ((pyGet req "id").getD .null) ∨
      resp = toolsListResponse ((pyGet req "id").getD .null) ∨
      ∃ s, resp = toolCallSuccess ((pyGet req "id").getD .null) s)) := by
  unfold handleRequest handleRequestCore at hresp
  rcases hm : (pyGet req "method").getD (.str "") with _ | b | k | m | xs | kvs0 | _ <;>
      simp only [hm] at hresp <;>
    try (simp only [Option.some.injEq] at hresp; subst hresp; exact Or.inl ⟨_, rfl⟩)
  by_cases h1 : m = "initialize"
  · simp only [h1, if_true, ite_true] at hresp
    by_cases hsafe : PyVal.jsonSafe (.obj req) = true
    · simp only [hsafe, not_true, Bool.not_true, if_false, ite_false] at hresp
      by_cases hnull : ((pyGet req "id").getD .null).isNull = true
      · simp only [hnull, if_true, ite_true] at hresp
        exact Option.noConfusion hresp
      · simp only [eq_false_of_ne_true hnull, Bool.false_eq_true, if_false, ite_false] at hresp
        rcases hip : initParamsError ((pyGet req "params").getD (.obj [])) with _ | msg <;>
            simp only [hip, Option.some.injEq] at hresp <;> subst hresp
        · exact Or.inr ⟨eq_false_of_ne_true hnull, Or.inl rfl⟩
        · exact Or.inl ⟨_, rfl⟩
    · rw [eq_false_of_ne_true hsafe] at hresp
      simp at hresp
  · simp only [h1, if_false, ite_false] at hresp
    by_cases h2 : m = "tools/list"
    · simp only [h2, if_true, ite_true] at hresp
      by_cases hnull : ((pyGet req "id").getD .null).isNull = true
      · simp only [hnull, if_true, ite_true] at hresp
        exact Option.noConfusion hresp
      · simp only [eq_false_of_ne_true hnull, Bool.false_eq_true, if_false, ite_false,
                   Option.some.injEq] at hresp
        subst hresp
        exact Or.inr ⟨eq_false_of_ne_true hnull, Or.inr (Or.inl rfl)⟩
    · simp only [h2, if_false, ite_false] at hresp
      by_cases h3 : m = "tools/call"
      · simp only [h3, if_true, ite_true] at hresp
        by_cases hnull : ((pyGet req "id").getD .null).isNull = true
        · simp only [hnull, if_true, ite_true] at hresp
          exact Option.noConfusion hresp
        · simp only [eq_false_of_ne_true hnull, Bool.false_eq_true, if_false, ite_false] at hresp
          rcases hp : (pyGet req "params").getD (.obj []) with _ | b2 | k2 | s2 | xs2 | p | _ <;>
              simp only [hp] at hresp <;>
            try (simp only [Option.some.injEq] at hresp; subst hresp; exact Or.inl ⟨_, rfl⟩)
          rcases hn : (pyGet p "name").getD .null with _ | b3 | k3 | t | xs3 | kvs3 | _ <;>
              simp only [hn] at hresp <;>
            try (simp only [Option.some.injEq] at hresp; subst hresp; exact Or.inl ⟨_, rfl⟩)
          by_cases ht : t ∈ registeredToolNames
          · simp only [ht, if_true, ite_true] at hresp
            rcases ha : (pyGet p "arguments").getD (.obj []) with _ | b4 | k4 | s4 | xs4 | args | _ <;>
                simp only [ha] at hresp <;>
              try (simp only [Option.some.injEq] at hresp; subst hresp; exact Or.inl ⟨_, rfl⟩)
            rcases ho : (oracle t (if t ∈ progressTools then
                injectProgressParams (resolveArguments t args) ((pyGet req "id").getD .null)
              else resolveArguments t args)).result with rs | re <;>
                simp only [ho, Option.some.injEq] at hresp <;> subst hresp
            · exact Or.inl ⟨_, rfl⟩
            · exact Or.inr ⟨eq_false_of_ne_true hnull, Or.inr (Or.inr ⟨_, rfl⟩)⟩
          · simp only [ht, if_false, ite_false, Option.some.injEq] at hresp
            subst hresp
            exact Or.inl ⟨_, rfl⟩
      · simp only [h3, if_false, ite_false] at hresp
        by_cases h4 : m = "notifications/initialized"
        · simp only [h4, if_true, ite_true] at hresp
          exact Option.noConfusion hresp
        · simp only [h4, if_false, ite_false] at hresp
          by_cases h5 : strStartsWith m "notifications/" = true
          · simp only [h5, if_true, ite_true] at hresp
            exact Option.noConfusion hresp
          · simp only [eq_false_of_ne_true h5, Bool.false_eq_true, if_false, ite_false,
                       Option.some.injEq] at hresp
            subst hresp
            exact Or.inl ⟨_, rfl⟩

theorem obj_inj {a b : List (String × PyVal)} (h : PyVal.obj a = PyVal.obj b) : a = b := by
  cases h; rfl

theorem handleRequest_no_null_id (oracle : ToolOracle) (name : String)
    (req : List (String × PyVal)) (resp : PyVal)
    (h : handleRequest oracle name (.obj req) = some resp)
    (kvs : List (String × PyVal)) (hk : resp = .obj kvs) :
    pyGet kvs "id" ≠ some PyVal.null := by
  rcases handleRequest_response_shape oracle name req resp h with ⟨m, rfl⟩ | ⟨hnn, hcase⟩
  · unfold errorResponse at hk
    by_cases hi : PyVal.isNull ((pyGet req "id").getD .null) = true
    · rw [if_pos hi] at hk
      rw [← obj_inj hk]
      intro hc
      simp [pyGet] at hc
    · rw [if_neg hi] at hk
      rw [← obj_inj hk, pyGet_append]
      intro hc
      rw [show pyGet [("jsonrpc", PyVal.str "2.0"),
            ("error", PyVal.obj [("code", PyVal.num (-32603)), ("message", PyVal.str m)])]
            "id" = none from rfl] at hc
      simp [pyGet] at hc
      rw [hc] at hi
      simp [PyVal.isNull] at hi
  · have key : pyGet kvs "id" = some ((pyGet req "id").getD .null) := by
      rcases hcase with rfl | rfl | ⟨s, rfl⟩
      · obtain ⟨kvs', hb, hid⟩ := initializeResponse_id name _ hnn
        rw [← obj_inj (hb ▸ hk : PyVal.obj kvs' = PyVal.obj kvs)]
        exact hid
      · obtain ⟨kvs', hb, hid⟩ := toolsListResponse_id _ hnn
        rw [← obj_inj (hb ▸ hk : PyVal.obj kvs' = PyVal.obj kvs)]
        exact hid
      · obtain ⟨kvs', hb, hid⟩ := toolCallSuccess_id _ s hnn
        rw [← obj_inj (hb ▸ hk : PyVal.obj kvs' = PyVal.obj kvs)]
        exact hid
    rw [key]
    intro hc
    simp only [Option.some.injEq] at hc
    rw [hc] at hnn
    simp [PyVal.isNull] at hnn

/-- C5 (amended): on the stdio transport the claim holds - every frame
the response guard emits either omits `id` or carries a scalar one, a
null or invalid-type id having been deleted before serialization - and
`handle_request` itself never builds a response whose `id` field is the
null literal. -/
theorem id_never_null_or_invalid_amended :
    (∀ (resp? : Option PyVal) (g : GuardOut),
       stdioGuard resp? = some g → idFieldOk g.obj = true) ∧
    (∀ (oracle : ToolOracle) (name : String) (req : List (String × PyVal)) (resp : PyVal),
       handleRequest oracle name (.obj req) = some resp →
       ∀ kvs, resp = .obj kvs → pyGet kvs "id" ≠ some PyVal.null) :=
  ⟨stdioGuard_idOk, handleRequest_no_null_id⟩

theorem id_never_null_or_invalid_amended_witness :
    (stdioGuard (some (errorResponse (.num 1) "boom")) =
       some ⟨errorResponse (.num 1) "boom",
             "\x7b\"jsonrpc\":\"2.0\",\"error\":\x7b\"code\":-32603,\"message\":\"boom\"\x7d,\"id\":1\x7d"⟩) ∧
    idFieldOk (GuardOut.mk (errorResponse (.num 1) "boom")
      "\x7b\"jsonrpc\":\"2.0\",\"error\":\x7b\"code\":-32603,\"message\":\"boom\"\x7d,\"id\":1\x7d").obj
      = true ∧
    (handleRequest trivOracle mcpServerName
        (.obj [("method", PyVal.str "nosuch"), ("id", PyVal.num 7)]) =
      some (errorResponse (.num 7) "Unknown method: nosuch")) ∧
    pyGet [("jsonrpc", PyVal.str "2.0"),
           ("error", PyVal.obj [("code", PyVal.num (-32603)),
                                ("message", PyVal.str "Unknown method: nosuch")]),
           ("id", PyVal.num 7)] "id" ≠ some PyVal.null :=
  ⟨rfl,
   id_never_null_or_invalid_amended.1 (some (errorResponse (.num 1) "boom")) _ rfl,
   rfl,
   id_never_null_or_invalid_amended.2 trivOracle mcpServerName
     [("method", PyVal.str "nosuch"), ("id", PyVal.num 7)]
     (errorResponse (.num 7) "Unknown method: nosuch") rfl _ rfl⟩

/-- C5 (counterexample): the HTTP transport serializes `handle_request`'s
response verbatim - a request whose id is the invalid type `[1, 2]` gets
a 200 reply whose body carries that invalid id back, refuting the claim
for the HTTP transport. -/
theorem http_serializes_invalid_id_cex :
    (httpPost trivOracle mcpServerName (.obj
        [("jsonrpc", PyVal.str "2.0"), ("method", PyVal.str "bogus"),
         ("id", PyVal.arr [.num 1, .num 2])])).obj =
      errorResponse (.arr [.num 1, .num 2]) "Unknown method: bogus" ∧
    PyVal.isStrIntFloat (.arr [.num 1, .num 2]) = false ∧
    (httpPost trivOracle mcpServerName (.obj
        [("jsonrpc", PyVal.str "2.0"), ("method", PyVal.str "bogus"),
         ("id", PyVal.arr [.num 1, .num 2])])).body =
      "\x7b\"jsonrpc\": \"2.0\", \"error\": \x7b\"code\": -32603, \"message\": \"Unknown method: bogus\"\x7d, \"id\": [1, 2]\x7d" :=
  ⟨rfl, rfl, rfl⟩

theorem dumps_err_null_isSome (ascii : Bool) (sep : Sep) (msg : String) :
    (pyDumps ascii sep (errorResponse .null msg)).isSome = true := by
  simp [errorResponse, PyVal.isNull, pyDumps, pyDumpsObj, pyDumpsList]

theorem truncate_err (i : PyVal) (m : String) :
    truncateContent (errorResponse i m) = none := by
  unfold errorResponse
  by_cases hi : PyVal.isNull i = true <;>
    simp [hi, truncateContent, pyGet]

theorem minimal_err_null (m : String) (n : Nat) :
    minimalOversize (errorResponse .null m) n =
      errorResponse .null (oversizeMessage n) := by
  simp [minimalOversize, withIdFrom, errorResponse, PyVal.isNull, pyGet]

theorem guardSend_err_null (msg : String) :
    ∃ g, guardSend (errorResponse PyVal.null msg) = some g ∧
      objHasKey g.obj "id" = false ∧ objHasKey g.obj "error" = true := by
  obtain ⟨s0, hs0⟩ := Option.isSome_iff_exists.mp (dumps_err_null_isSome false compactSep msg)
  unfold guardSend
  rw [hs0]
  by_cases hu : strContains s0 undefinedLiteral = true
  · simp only [hu, if_true, ite_true]
    rw [if_neg (by decide :
          ¬ 100 * 1024 < ((pyDumps true defaultSep safeFallback).getD "").length)]
    rw [if_neg (by decide :
          ¬ 200 * 1024 < ((pyDumps true defaultSep safeFallback).getD "").length)]
    exact ⟨_, rfl, (by decide : objHasKey safeFallback "id" = false),
           (by decide : objHasKey safeFallback "error" = true)⟩
  · simp only [eq_false_of_ne_true hu, Bool.false_eq_true, if_false, ite_false]
    by_cases hs : 100 * 1024 < s0.length
    · rw [if_pos hs]
      simp only [truncate_err]
      by_cases h2 : 200 * 1024 < s0.length
      · rw [if_pos h2, minimal_err_null]
        obtain ⟨s3, hs3⟩ := Option.isSome_iff_exists.mp
          (dumps_err_null_isSome true defaultSep (oversizeMessage s0.length))
        rw [hs3]
        refine ⟨_, rfl, ?_, ?_⟩ <;>
          simp [errorResponse, PyVal.isNull, objHasKey, pyGet]
      · rw [if_neg h2]
        refine ⟨_, rfl, ?_, ?_⟩ <;>
          simp [errorResponse, PyVal.isNull, objHasKey, pyGet]
    · rw [if_neg hs, if_neg (by omega : ¬ 200 * 1024 < s0.length)]
      refine ⟨_, rfl, ?_, ?_⟩ <;>
        simp [errorResponse, PyVal.isNull, objHasKey, pyGet]

theorem stdioGuard_err_null (msg : String) :
    stdioGuard (some (errorResponse PyVal.null msg)) =
      guardSend (errorResponse PyVal.null msg) := by
  simp [stdioGuard, errorResponse, PyVal.isNull, pyGet]

/-- C1 (amended): a Notification (id absent or null) whose method is
`initialize`, `tools/list`, `tools/call`, `notifications/initialized`
or any `notifications/*` method produces no output frame; but a
Notification with any other (unknown) method produces exactly one
id-less error frame. -/
theorem notification_frames_amended (oracle : ToolOracle) (name : String)
    (req : List (String × PyVal)) (m : String)
    (hm : pyGet req "method" = some (.str m))
    (hid : ((pyGet req "id").getD .null).isNull = true)
    (hsafe : PyVal.jsonSafe (.obj req) = true) :
    ((m = "initialize" ∨ m = "tools/list" ∨ m = "tools/call" ∨
        m = "notifications/initialized" ∨ strStartsWith m "notifications/" = true) →
      stdioProcess oracle name (.obj req) = []) ∧
    (m ≠ "initialize" → m ≠ "tools/list" → m ≠ "tools/call" →
     m ≠ "notifications/initialized" → strStartsWith m "notifications/" = false →
      ∃ g, stdioGuard (some (errorResponse PyVal.null ("Unknown method: " ++ m))) = some g ∧
        stdioProcess oracle name (.obj req) = [g.line] ∧
        objHasKey g.obj "id" = false ∧ objHasKey g.obj "error" = true) := by
  have hreqid : (pyGet req "id").getD .null = PyVal.null := by
    cases hv : (pyGet req "id").getD .null <;> rw [hv] at hid <;>
      simp [PyVal.isNull] at hid
  constructor
  · intro hcase
    simp only [stdioProcess]
    rw [show (pyGet req "method").isNone = false from by rw [hm]; rfl]
    unfold handleRequestCore
    simp only [hm, Option.getD_some, hreqid]
    rcases hcase with rfl | rfl | rfl | rfl | hpre
    · simp only [hsafe]
      rfl
    · rfl
    · rfl
    · rfl
    · have h1 : m ≠ "initialize" := fun e => by rw [e] at hpre; exact absurd hpre (by decide)
      have h2 : m ≠ "tools/list" := fun e => by rw [e] at hpre; exact absurd hpre (by decide)
      have h3 : m ≠ "tools/call" := fun e => by rw [e] at hpre; exact absurd hpre (by decide)
      by_cases h4 : m = "notifications/initialized"
      · rw [h4]
        rfl
      · simp only [h1, h2, h3, h4, if_false, ite_false, hpre, if_true, ite_true]
        rfl
  · intro h1 h2 h3 h4 h5
    obtain ⟨g, hg, hgi, hge⟩ := guardSend_err_null ("Unknown method: " ++ m)
    refine ⟨g, by rw [stdioGuard_err_null]; exact hg, ?_, hgi, hge⟩
    simp only [stdioProcess]
    rw [show (pyGet req "method").isNone = false from by rw [hm]; rfl]
    unfold handleRequestCore
    simp only [hm, Option.getD_some, hreqid]
    simp only [h1, h2, h3, h4, h5, if_false, ite_false, Bool.false_eq_true]
    rw [stdioGuard_err_null, hg]
    simp

/-- C1 (counterexample): a Notification (no id at all) with an unknown
method DOES get a Response frame written on stdio - the unknown-method
error response loses its null id in the guard and goes out as an id-less
error frame, refuting "the Dispatcher never writes a Response frame" for
Notifications. -/
theorem notification_unknown_method_frame_cex :
    stdioProcess trivOracle mcpServerName (.obj [("method", PyVal.str "bogus")]) =
      ["\x7b\"jsonrpc\":\"2.0\",\"error\":\x7b\"code\":-32603,\"message\":\"Unknown method: bogus\"\x7d\x7d"] ∧
    ((pyGet [("method", PyVal.str "bogus")] "id").getD .null).isNull = true := by
  exact ⟨rfl, rfl⟩

theorem notification_frames_amended_witness :
    pyGet [("method", PyVal.str "notifications/progress")] "method" =
      some (PyVal.str "notifications/progress") ∧
    ((pyGet [("method", PyVal.str "notifications/progress")] "id").getD .null).isNull = true ∧
    PyVal.jsonSafe (.obj [("method", PyVal.str "notifications/progress")]) = true ∧
    stdioProcess trivOracle mcpServerName
      (.obj [("method", PyVal.str "notifications/progress")]) = [] :=
  ⟨rfl, rfl, rfl,
   (notification_frames_amended trivOracle mcpServerName
      [("method", PyVal.str "notifications/progress")] "notifications/progress"
      rfl rfl rfl).1
     (Or.inr (Or.inr (Or.inr (Or.inr (by decide)))))⟩

/-- C3 (counterexample): there is no handshake gating - a `tools/list`
Request handled with no prior `initialize` is answered with the normal
tool-list result (no error), and a `tools/call` arriving as the very
first stdio message is served and its result frame written. -/
theorem tools_list_before_initialize_cex :
    (handleRequest trivOracle mcpServerName toolsListFirstReq).map
      (fun resp => (objHasKey resp "result", objHasKey resp "error")) = some (true, false) ∧
    handleRequest trivOracle mcpServerName toolsListFirstReq =
      some (toolsListResponse (.num 1)) ∧
    stdioRun trivOracle mcpServerName [toolsCallFirstReq] =
      ["\x7b\"jsonrpc\":\"2.0\",\"id\":1,\"result\":\x7b\"content\":[\x7b\"type\":\"text\",\"text\":\"\"\x7d]\x7d\x7d"] := by
  exact ⟨rfl, rfl, rfl⟩

theorem stdioRun_aux (oracle : ToolOracle) (name : String) :
    ∀ (reqs : List PyVal) (st : LoopState) (acc : List String),
      (reqs.foldl
        (fun acc r =>
          let s := stdioStep oracle name acc.1 r
          (s.1, acc.2 ++ s.2))
        (st, acc)).2 = acc ++ reqs.flatMap (stdioProcess oracle name) := by
  intro reqs
  induction reqs with
  | nil => intro st acc; simp
  | cons r rs ih =>
    intro st acc
    rw [List.foldl_cons]
    exact (ih ⟨st.requestCount + 1⟩ (acc ++ stdioProcess oracle name r)).trans
      (by rw [List.flatMap_cons, List.append_assoc])

/-- C3 (amended): the dispatcher keeps no handshake state at all.  The
stdio session output is the per-message concatenation of each message's
own frames, independent of any preceding traffic, and a `tools/list`
Request is answered with the full tool list even when no `initialize`
was ever processed. -/
theorem handshake_state_amended (oracle : ToolOracle) (name : String)
    (reqs : List PyVal) (i : PyVal) (hi : i.isNull = false) :
    stdioRun oracle name reqs = reqs.flatMap (stdioProcess oracle name) ∧
    handleRequest oracle name
      (.obj [("jsonrpc", PyVal.str "2.0"), ("id", i),
             ("method", PyVal.str "tools/list")]) = some (toolsListResponse i) := by
  constructor
  · rw [stdioRun, stdioRun_aux]
    simp
  · simp only [handleRequest, handleRequestCore, pyGet]
    simp [hi]

theorem handshake_state_amended_witness :
    (PyVal.num 7).isNull = false ∧
    (stdioRun trivOracle mcpServerName [PyVal.obj [("method", PyVal.str "bogus")]] =
      [PyVal.obj [("method", PyVal.str "bogus")]].flatMap
        (stdioProcess trivOracle mcpServerName) ∧
    handleRequest trivOracle mcpServerName
      (.obj [("jsonrpc", PyVal.str "2.0"), ("id", PyVal.num 7),
             ("method", PyVal.str "tools/list")]) =
      some (toolsListResponse (PyVal.num 7))) := by
  refine ⟨by decide, ?_⟩
  exact handshake_state_amended trivOracle mcpServerName
    [PyVal.obj [("method", PyVal.str "bogus")]] (PyVal.num 7) (by decide)

theorem response_echoes_request_id_witness :
    (pyGet [("jsonrpc", PyVal.str "2.0"), ("id", PyVal.num 7),
            ("method", PyVal.str "bogus")] "id").getD .null = PyVal.num 7 ∧
    PyVal.isScalarId (PyVal.num 7) = true ∧
    handleRequest trivOracle mcpServerName
      (.obj [("jsonrpc", PyVal.str "2.0"), ("id", PyVal.num 7),
             ("method", PyVal.str "bogus")]) =
      some (errorResponse (PyVal.num 7) "Unknown method: bogus") ∧
    ∃ kvs, errorResponse (PyVal.num 7) "Unknown method: bogus" = .obj kvs ∧
      pyGet kvs "id" = some (PyVal.num 7) :=
  ⟨rfl, rfl, rfl,
   response_echoes_request_id trivOracle mcpServerName
     [("jsonrpc", PyVal.str "2.0"), ("id", PyVal.num 7),
      ("method", PyVal.str "bogus")] (PyVal.num 7) rfl rfl
     (errorResponse (PyVal.num 7) "Unknown method: bogus") rfl⟩

/-- C6: argument unwrapping in `tools/call`.  With wrapper key
`GetRfcInput`, the wrapped arguments resolve to the inner mapping; flat
arguments pass through unchanged; in general one level is unwrapped
exactly when the sole argument key equals the tool schema's wrapper key
and its value is a mapping, and every other shape passes through as-is. -/
theorem argument_unwrapping :
    resolveArguments "get_rfc"
      [("GetRfcInput", PyVal.obj [("number", PyVal.str "2616")])] =
      [("number", PyVal.str "2616")] ∧
    resolveArguments "get_rfc" [("number", PyVal.str "2616")] =
      [("number", PyVal.str "2616")] ∧
    (∀ (t k : String) (inner : List (String × PyVal)),
      (toolSchemas t).head?.map Prod.fst = some k →
      resolveArguments t [(k, PyVal.obj inner)] = inner) ∧
    (∀ (t : String) (args : List (String × PyVal)),
      (∀ (k : String) (inner : List (String × PyVal)),
        (toolSchemas t).head?.map Prod.fst = some k →
        args ≠ [(k, PyVal.obj inner)]) →
      resolveArguments t args = args) := by
  refine ⟨rfl, rfl, ?_, ?_⟩
  · intro t k inner hk
    cases hsw : toolSchemas t with
    | nil => rw [hsw] at hk; exact Option.noConfusion hk
    | cons hd tl =>
      obtain ⟨ek, v⟩ := hd
      rw [hsw] at hk
      simp at hk
      subst hk
      simp only [resolveArguments, hsw]
      simp
  · intro t args hne
    simp only [resolveArguments]
    cases hsw : toolSchemas t with
    | nil => simp [hsw]
    | cons hd tl =>
      obtain ⟨ek, v⟩ := hd
      match args with
      | [] => simp
      | a :: b :: rest => simp
      | [(ak, av)] =>
        by_cases hak : ak = ek
        · subst hak
          have h1 : (toolSchemas t).head?.map Prod.fst = some ak := by
            rw [hsw]; rfl
          match av with
          | .obj inner => exact absurd rfl (hne ak inner h1)
          | .null => simp
          | .bool b => simp
          | .num n => simp
          | .str s => simp
          | .arr xs => simp
          | .callback => simp
        · simp [hak]

theorem argument_unwrapping_witness :
    (toolSchemas "get_rfc").head?.map Prod.fst = some "GetRfcInput" ∧
    resolveArguments "get_rfc" [("GetRfcInput", PyVal.obj [])] = [] ∧
    resolveArguments "search_rfcs" [("number", PyVal.str "1")] =
      [("number", PyVal.str "1")] :=
  ⟨rfl, argument_unwrapping.2.2.1 "get_rfc" "GetRfcInput" [] rfl,
   argument_unwrapping.2.2.2 "search_rfcs" [("number", PyVal.str "1")]
     (by intro k inner _ h; simp at h)⟩

/-- C10: for every `format` other than `"metadata"` and `"sections"` -
including values outside the declared enum - `get_rfc` serializes the
full fetched record, exactly as `format = "full"` does; the out-of-enum
value is never rejected. -/
theorem get_rfc_format_fallthrough (number : String) (fetch : Except String PyVal)
    (format : String) (h1 : format ≠ "metadata") (h2 : format ≠ "sections") :
    get_rfc number fetch format = get_rfc number fetch "full" := by
  cases fetch with
  | error e => rfl
  | ok rfc => simp [get_rfc, h1, h2]

theorem get_rfc_format_fallthrough_witness :
    ("xml" : String) ≠ "metadata" ∧ ("xml" : String) ≠ "sections" ∧
    get_rfc "2616" (Except.ok (PyVal.obj [("number", PyVal.num 2616)])) "xml" =
      get_rfc "2616" (Except.ok (PyVal.obj [("number", PyVal.num 2616)])) "full" :=
  ⟨by decide, by decide,
   get_rfc_format_fallthrough "2616"
     (Except.ok (PyVal.obj [("number", PyVal.num 2616)])) "xml"
     (by decide) (by decide)⟩

/-- C8: on the stdio transport, every progress event of a `tools/call`
request is written strictly before the terminal Response frame: the
frames of the whole request are exactly the progress lines, each tagged
with the request id, followed by whatever terminal frame the response
guard emits. -/
theorem progress_events_precede_response (oracle : ToolOracle) (name : String)
    (req p args : List (String × PyVal)) (i : PyVal) (t : String)
    (hm : (pyGet req "method").getD (.str "") = PyVal.str "tools/call")
    (hi : (pyGet req "id").getD .null = i) (hnn : i.isNull = false)
    (hp : (pyGet req "params").getD (.obj []) = PyVal.obj p)
    (hn : (pyGet p "name").getD .null = PyVal.str t)
    (hreg : t ∈ registeredToolNames) (hprog : t ∈ progressTools)
    (ha : (pyGet p "arguments").getD (.obj []) = PyVal.obj args) :
    stdioProcess oracle name (.obj req) =
      ((oracle t (injectProgressParams (resolveArguments t args) i)).events.map
        (fun e => progressLine (i, e.1, e.2))) ++
      ((stdioGuard (handleRequest oracle name (.obj req))).map
        (fun g => g.line)).toList := by
  have hmf : (pyGet req "method").isNone = false := by
    cases hmm : pyGet req "method" with
    | none => rw [hmm] at hm; exact absurd hm (by simp)
    | some v => simp [Option.isNone]
  have h1 : ("tools/call" : String) ≠ "initialize" := by decide
  have h2 : ("tools/call" : String) ≠ "tools/list" := by decide
  have hcore : handleRequestCore oracle name (.obj req) =
      .ok ⟨some (match (oracle t (injectProgressParams (resolveArguments t args) i)).result with
                 | .ok s => toolCallSuccess i s
                 | .error e => errorResponse i e),
           (oracle t (injectProgressParams (resolveArguments t args) i)).events.map
             (fun e => (i, e.1, e.2))⟩ := by
    unfold handleRequestCore
    simp only [hm, hi, hp, h1, if_false, ite_false, h2, if_true, ite_true, hnn,
               Bool.false_eq_true, hn, hreg, hprog, ha]
    cases (oracle t (injectProgressParams (resolveArguments t args) i)).result <;> rfl
  simp only [stdioProcess, hmf, Bool.false_eq_true, if_false, ite_false, hcore]
  rw [handleRequest, hcore]
  simp [List.map_map, Function.comp]

theorem progress_events_precede_response_witness :
    (pyGet demoCallReq "method").getD (.str "") = PyVal.str "tools/call" ∧
    (pyGet demoCallReq "id").getD .null = PyVal.num 3 ∧
    (PyVal.num 3).isNull = false ∧
    (pyGet demoCallReq "params").getD (.obj []) =
      PyVal.obj [("name", PyVal.str "get_rfc"),
                 ("arguments", .obj [("number", PyVal.str "2616")])] ∧
    (pyGet [("name", PyVal.str "get_rfc"),
            ("arguments", .obj [("number", PyVal.str "2616")])] "name").getD .null =
      PyVal.str "get_rfc" ∧
    "get_rfc" ∈ registeredToolNames ∧ "get_rfc" ∈ progressTools ∧
    (pyGet [("name", PyVal.str "get_rfc"),
            ("arguments", .obj [("number", PyVal.str "2616")])] "arguments").getD
      (.obj []) = PyVal.obj [("number", PyVal.str "2616")] ∧
    stdioProcess demoOracle mcpServerName (.obj demoCallReq) =
      ((demoOracle "get_rfc"
        (injectProgressParams (resolveArguments "get_rfc"
          [("number", PyVal.str "2616")]) (PyVal.num 3))).events.map
        (fun e => progressLine (PyVal.num 3, e.1, e.2))) ++
      ((stdioGuard (handleRequest demoOracle mcpServerName (.obj demoCallReq))).map
        (fun g => g.line)).toList :=
  ⟨rfl, rfl, rfl, rfl, rfl, by decide, by decide, rfl,
   progress_events_precede_response demoOracle mcpServerName demoCallReq
     [("name", PyVal.str "get_rfc"),
      ("arguments", .obj [("number", PyVal.str "2616")])]
     [("number", PyVal.str "2616")] (PyVal.num 3) "get_rfc"
     rfl rfl rfl rfl rfl (by decide) (by decide) rfl⟩

/-- C9: a `tools/call` Request naming a progress-capable tool has
`_request_id` and `_progress_callback` inserted into its arguments dict
in place; when the arguments were not unwrapped, the caller-supplied
request object itself comes back with its `params.arguments` mapping
extended by the two keys - not unchanged. -/
theorem tools_call_mutates_request (req p args : List (String × PyVal))
    (i : PyVal) (t : String)
    (hm : (pyGet req "method").getD (.str "") = PyVal.str "tools/call")
    (hi : (pyGet req "id").getD .null = i) (hnn : i.isNull = false)
    (hp : pyGet req "params" = some (PyVal.obj p))
    (hn : pyGet p "name" = some (PyVal.str t))
    (hreg : t ∈ registeredToolNames) (hprog : t ∈ progressTools)
    (ha : pyGet p "arguments" = some (PyVal.obj args))
    (hflat : ∀ (k : String) (inner : List (String × PyVal)),
      args ≠ [(k, PyVal.obj inner)])
    (hf1 : pyGet args "_request_id" = none)
    (hf2 : pyGet args "_progress_callback" = none) :
    handleRequestPost (.obj req) =
      .obj (pySet req "params" (.obj (pySet p "arguments"
        (.obj (args ++ [("_request_id", i),
                        ("_progress_callback", PyVal.callback)]))))) ∧
    handleRequestPost (.obj req) ≠ .obj req := by
  have hinj : injectProgressParams args i =
      args ++ [("_request_id", i), ("_progress_callback", PyVal.callback)] := by
    rw [injectProgressParams, pySet_absent args _ _ hf1, pySet_absent, List.append_assoc]
    · rfl
    · rw [pyGet_append, hf2]
      simp [pyGet]
  have hpost : handleRequestPost (.obj req) =
      .obj (pySet req "params" (.obj (pySet p "arguments"
        (.obj (injectProgressParams args i))))) := by
    unfold handleRequestPost
    rcases args with _ | ⟨⟨ak, av⟩, rest⟩
    · simp only [hm, hi, hp, hn, ha]
      simp [hnn, hreg, hprog]
    rcases rest with _ | ⟨b, rest2⟩
    · cases av with
      | obj inner => exact absurd rfl (hflat ak inner)
      | null => simp only [hm, hi, hp, hn, ha]; simp [hnn, hreg, hprog]
      | bool b => simp only [hm, hi, hp, hn, ha]; simp [hnn, hreg, hprog]
      | num n => simp only [hm, hi, hp, hn, ha]; simp [hnn, hreg, hprog]
      | str s => simp only [hm, hi, hp, hn, ha]; simp [hnn, hreg, hprog]
      | arr xs => simp only [hm, hi, hp, hn, ha]; simp [hnn, hreg, hprog]
      | callback => simp only [hm, hi, hp, hn, ha]; simp [hnn, hreg, hprog]
    · simp only [hm, hi, hp, hn, ha]
      simp [hnn, hreg, hprog]
  refine ⟨hpost.trans (by rw [hinj]), ?_⟩
  rw [hpost, hinj]
  intro hEq
  have h1 : pySet req "params" (.obj (pySet p "arguments"
      (.obj (args ++ [("_request_id", i),
                      ("_progress_callback", PyVal.callback)])))) = req :=
    PyVal.obj.inj hEq
  have h2 : pyGet req "params" = some (PyVal.obj (pySet p "arguments"
      (.obj (args ++ [("_request_id", i),
                      ("_progress_callback", PyVal.callback)])))) := by
    rw [← h1]
    exact pyGet_pySet_self req "params" _ _ hp
  rw [hp] at h2
  have h3 : pySet p "arguments" (.obj (args ++ [("_request_id", i),
      ("_progress_callback", PyVal.callback)])) = p :=
    (PyVal.obj.inj (Option.some.inj h2)).symm
  have h4 : pyGet p "arguments" = some (.obj (args ++ [("_request_id", i),
      ("_progress_callback", PyVal.callback)])) := by
    rw [← h3]
    exact pyGet_pySet_self p "arguments" _ _ ha
  rw [ha] at h4
  have h5 : args ++ [("_request_id", i), ("_progress_callback", PyVal.callback)] =
      args := PyVal.obj.inj (Option.some.inj h4.symm)
  have h6 := congrArg List.length h5
  simp only [List.length_append, List.length_cons, List.length_nil] at h6
  omega

theorem tools_call_mutates_request_witness :
    (pyGet demoCallReq "method").getD (.str "") = PyVal.str "tools/call" ∧
    (pyGet demoCallReq "id").getD .null = PyVal.num 3 ∧
    (PyVal.num 3).isNull = false ∧
    pyGet demoCallReq "params" =
      some (PyVal.obj [("name", PyVal.str "get_rfc"),
                       ("arguments", .obj [("number", PyVal.str "2616")])]) ∧
    pyGet [("name", PyVal.str "get_rfc"),
           ("arguments", .obj [("number", PyVal.str "2616")])] "name" =
      some (PyVal.str "get_rfc") ∧
    "get_rfc" ∈ registeredToolNames ∧ "get_rfc" ∈ progressTools ∧
    pyGet [("name", PyVal.str "get_rfc"),
           ("arguments", .obj [("number", PyVal.str "2616")])] "arguments" =
      some (PyVal.obj [("number", PyVal.str "2616")]) ∧
    (∀ (k : String) (inner : List (String × PyVal)),
      [("number", PyVal.str "2616")] ≠ [(k, PyVal.obj inner)]) ∧
    pyGet [("number", PyVal.str "2616")] "_request_id" = none ∧
    pyGet [("number", PyVal.str "2616")] "_progress_callback" = none ∧
    (handleRequestPost (.obj demoCallReq) =
      .obj (pySet demoCallReq "params"
        (.obj (pySet [("name", PyVal.str "get_rfc"),
                      ("arguments", .obj [("number", PyVal.str "2616")])] "arguments"
          (.obj ([("number", PyVal.str "2616")] ++
            [("_request_id", PyVal.num 3),
             ("_progress_callback", PyVal.callback)]))))) ∧
     handleRequestPost (.obj demoCallReq) ≠ .obj demoCallReq) :=
  ⟨rfl, rfl, rfl, rfl, rfl, by decide, by decide, rfl,
   by intro k inner h; simp at h, rfl, rfl,
   tools_call_mutates_request demoCallReq
     [("name", PyVal.str "get_rfc"),
      ("arguments", .obj [("number", PyVal.str "2616")])]
     [("number", PyVal.str "2616")] (PyVal.num 3) "get_rfc"
     rfl rfl rfl rfl rfl (by decide) (by decide) rfl
     (by intro k inner h; simp at h) rfl rfl⟩

end StdFinder
